import Mathlib

set_option autoImplicit false

/-!
Formal model of the authentication core of the hayl-energy-ai repository:
input sanitization (`src/lib/sanitization.ts`), JWT issuance/verification
(`src/lib/jwt.ts`), the fixed-window rate limiter (`src/lib/rate-limit.ts`),
the auth event logger (`src/lib/cors.ts`, class `AuthLogger`) and the login
route handler (`src/app/api/auth/login/route.ts`).

Strings are modelled as `List Char`; each JavaScript regular-expression
replacement is translated into an explicit left-to-right scanner with the
same non-overlapping match semantics.  Timestamps are integers (milliseconds
as delivered by `Date.now()`, seconds inside JWT claims).  The ISO-8601
timestamp strings of the logger compare lexicographically exactly as their
underlying instants compare, so they are modelled by their instants.
-/

namespace HaylSpec

/-- The backslash character (kept out of literals for readability). -/
def backslashChar : Char := Char.ofNat 92

/-- The single-quote character. -/
def singleQuoteChar : Char := Char.ofNat 39

/-- The double-quote character. -/
def doubleQuoteChar : Char := Char.ofNat 34

/-- The backtick character. -/
def backtickChar : Char := Char.ofNat 96

/-- JavaScript whitespace (the set used by `String.prototype.trim` and by the
regular-expression class `\s`): tab, LF, VT, FF, CR, space, NBSP, the Unicode
space separators, LS, PS and the BOM. -/
def isJsSpace (c : Char) : Bool :=
  c.val == 9 || c.val == 10 || c.val == 11 || c.val == 12 || c.val == 13 ||
  c.val == 32 || c.val == 160 || c.val == 5760 ||
  (8192 ≤ c.val && c.val ≤ 8202) || c.val == 8232 || c.val == 8233 ||
  c.val == 8239 || c.val == 8287 || c.val == 12288 || c.val == 65279

/-- The control characters stripped by `sanitizeString`:
`[\x00-\x08\x0B\x0C\x0E-\x1F\x7F]` (newline, carriage return and tab are kept). -/
def isStrippedControl (c : Char) : Bool :=
  c.val ≤ 8 || c.val == 11 || c.val == 12 || (14 ≤ c.val && c.val ≤ 31) ||
  c.val == 127

/-- A regular-expression word character (`\w` = `[A-Za-z0-9_]`). -/
def isWordChar (c : Char) : Bool :=
  c.isAlphanum || c == '_'

/-- `l.dropWhile isJsSpace`: trim on the left, as the first half of
`String.prototype.trim`. -/
def jsTrimLeft (l : List Char) : List Char :=
  l.dropWhile isJsSpace

/-- Trim on the right (reverse, trim left, reverse). -/
def jsTrimRight (l : List Char) : List Char :=
  (l.reverse.dropWhile isJsSpace).reverse

/-- `String.prototype.trim`. -/
def jsTrim (l : List Char) : List Char :=
  jsTrimRight (jsTrimLeft l)

/-- Global replacement of the single character `c` by the string `r`
(`input.replace(/c/g, r)`). -/
def replaceChar (c : Char) (r : List Char) : List Char → List Char
  | [] => []
  | x :: xs => (if x = c then r else [x]) ++ replaceChar c r xs

/-- `InputSanitizer.preventXSS`: HTML-entity-encode `& < > " ' / `` =`,
in the source's order (ampersand first). -/
def preventXSS (l : List Char) : List Char :=
  let s := replaceChar '&' ("&amp;".data) l
  let s := replaceChar '<' ("&lt;".data) s
  let s := replaceChar '>' ("&gt;".data) s
  let s := replaceChar doubleQuoteChar ("&quot;".data) s
  let s := replaceChar singleQuoteChar ("&#x27;".data) s
  let s := replaceChar '/' ("&#x2F;".data) s
  let s := replaceChar backtickChar ("&#96;".data) s
  replaceChar '=' ("&#61;".data) s

/-- Scanner realizing `input.replace(/('|(\\'))+/g, '')` (and the analogous
double-quote pattern): every occurrence of the quote `q` is removed, and a
backslash immediately preceding a `q` is removed together with it. -/
def removeQuotePairs (q : Char) : List Char → List Char
  | [] => []
  | [a] => if a = q then [] else [a]
  | a :: b :: rest =>
    if a = q then removeQuotePairs q (b :: rest)
    else if a = backslashChar ∧ b = q then removeQuotePairs q rest
    else a :: removeQuotePairs q (b :: rest)

/-- Scanner realizing removal of the two-character pattern `x y`
(`input.replace(/xy/g, '')` with left-to-right non-overlapping matches). -/
def removePair (x y : Char) : List Char → List Char
  | [] => []
  | [a] => [a]
  | a :: b :: rest =>
    if a = x ∧ b = y then removePair x y rest
    else a :: removePair x y (b :: rest)

/-- Case-insensitive prefix test: `pat` (given upper-case) is matched by the
head of `l` ignoring ASCII case. -/
def ciStarts : List Char → List Char → Bool
  | [], _ => true
  | _ :: _, [] => false
  | p :: ps, c :: cs => (c.toUpper == p) && ciStarts ps cs

/-- `\b` to the left of a match: the previous character of the original string
(if any) is not a word character. -/
def boundaryLeft : Option Char → Bool
  | none => true
  | some p => !isWordChar p

/-- `\b` to the right of a match: the next character (if any) is not a word
character. -/
def boundaryRight : List Char → Bool
  | [] => true
  | c :: _ => !isWordChar c

/-- The engine shared by all the regex-removal passes below, realizing the
semantics of a global `input.replace(/pat/g, '')`: scan left to right; at
each position ask the matcher `step` (which sees the previous character of
the ORIGINAL string, for `\b`, and the current suffix) for a match length;
on a match (always ≥ 1 here) emit nothing and skip the matched characters,
then resume; otherwise emit the character.  `skip` counts characters of a
match still to be consumed. -/
def runScan (step : Option Char → List Char → Option Nat) :
    Nat → Option Char → List Char → List Char
  | _, _, [] => []
  | 0, prev, c :: cs =>
    match step prev (c :: cs) with
    | some n => runScan step (n - 1) (some c) cs
    | none => c :: runScan step 0 (some c) cs
  | skip + 1, _, c :: cs => runScan step skip (some c) cs

/-- The matcher for `/\bKW\b/i` with keyword `k :: ks` (upper-case),
anchored at the head of `l`. -/
def kwStep (k : Char) (ks : List Char) (prev : Option Char) (l : List Char) :
    Option Nat :=
  if ciStarts (k :: ks) l && boundaryLeft prev &&
      boundaryRight (l.drop (ks.length + 1)) then
    some (ks.length + 1)
  else none

/-- Removal of one SQL keyword given as a string
(`input.replace(/\bKW\b/gi, '')`). -/
def removeKeyword (kw : String) (l : List Char) : List Char :=
  match kw.data with
  | [] => l
  | k :: ks => runScan (kwStep k ks) 0 none l

/-- `InputSanitizer.preventSQLInjection`: strip quotes, semicolons, comment
markers and the SQL keywords, in the source's order. -/
def preventSQLInjection (l : List Char) : List Char :=
  let s := removeQuotePairs singleQuoteChar l
  let s := removeQuotePairs doubleQuoteChar s
  let s := s.filter (fun c => c ≠ ';')
  let s := removePair '-' '-' s
  let s := removePair '/' '*' s
  let s := removePair '*' '/' s
  let s := removeKeyword "UNION" s
  let s := removeKeyword "SELECT" s
  let s := removeKeyword "INSERT" s
  let s := removeKeyword "UPDATE" s
  let s := removeKeyword "DELETE" s
  let s := removeKeyword "DROP" s
  let s := removeKeyword "CREATE" s
  let s := removeKeyword "ALTER" s
  let s := removeKeyword "EXEC" s
  removeKeyword "SCRIPT" s

/-- The matcher for `/<[^>]*>/`: a `<` whose suffix still contains a `>`
matches through that first `>`; a `<` with no later `>` never matches. -/
def htmlTagStep (_ : Option Char) (l : List Char) : Option Nat :=
  match l with
  | [] => none
  | c :: cs =>
    if c = '<' then
      let t := cs.takeWhile (fun x => x ≠ '>')
      if t.length < cs.length then some (t.length + 2) else none
    else none

/-- `InputSanitizer.stripHTML`: `input.replace(/<[^>]*>/g, '')`. -/
def stripHTML (l : List Char) : List Char :=
  runScan htmlTagStep 0 none l

/-- First case-insensitive occurrence of the pattern `p :: ps` in a list:
its index, if any. -/
def findCIIdx (p : Char) (ps : List Char) : List Char → Option Nat
  | [] => none
  | c :: cs =>
    if ciStarts (p :: ps) (c :: cs) then some 0
    else (findCIIdx p ps cs).map (· + 1)

/-- Length of a match of `/<script\b[^<]*(?:(?!<\/script>)<[^<]*)*<\/script>/i`
anchored at the head of `l`: requires `<script` (case-insensitively) followed
by a word boundary, and extends through the first subsequent `</script>`
(which necessarily starts at a `<`, the only places the regex can close). -/
def scriptMatchLen (l : List Char) : Option Nat :=
  if ciStarts ("<SCRIPT".data) l && boundaryRight (l.drop 7) then
    (findCIIdx '<' ("/SCRIPT>".data) l).map (· + 9)
  else none

/-- Scanner realizing the script-tag removal pass of
`InputSanitizer.sanitizeHTML`. -/
def removeScriptTags (l : List Char) : List Char :=
  runScan (fun _ m => scriptMatchLen m) 0 none l

/-- Length of a match of `/\bon\w+\s*=/i` anchored at the head of `l`
(`prev` is the character of the original string just before `l`). -/
def evMatchLen (prev : Option Char) (l : List Char) : Option Nat :=
  if boundaryLeft prev && ciStarts ("ON".data) l then
    let rest := l.drop 2
    let k := (rest.takeWhile isWordChar).length
    if 1 ≤ k then
      let rest2 := rest.drop k
      let j := (rest2.takeWhile isJsSpace).length
      match rest2.drop j with
      | e :: _ => if e = '=' then some (2 + k + j + 1) else none
      | [] => none
    else none
  else none

/-- Scanner realizing `input.replace(/\bon\w+\s*=/gi, '')` (the
event-handler-attribute removal pass of `sanitizeHTML`). -/
def removeEventHandlers (l : List Char) : List Char :=
  runScan evMatchLen 0 none l

/-- The matcher for a fixed substring with no metacharacters, matched
case-insensitively (pattern `p :: ps`, upper-case). -/
def ciSubStep (p : Char) (ps : List Char) (_ : Option Char) (l : List Char) :
    Option Nat :=
  if ciStarts (p :: ps) l then some (ps.length + 1) else none

/-- Scanner realizing case-insensitive removal of a fixed substring
(`input.replace(/pat/gi, '')`), used for the `javascript:` pass. -/
def removeCISub (p : Char) (ps : List Char) (l : List Char) : List Char :=
  runScan (ciSubStep p ps) 0 none l

/-- Length of a match of `/data:\s*[^;]+;[^,]+,/i` anchored at the head of
`l`: `data:`, then at least one non-`;` character up to the first `;`, then at
least one non-`,` character up to the first `,`. -/
def dataUrlMatchLen (l : List Char) : Option Nat :=
  if ciStarts ("DATA:".data) l then
    let r := l.drop 5
    let t1 := (r.takeWhile (fun c => c ≠ ';')).length
    if 1 ≤ t1 ∧ t1 < r.length then
      let r2 := r.drop (t1 + 1)
      let t2 := (r2.takeWhile (fun c => c ≠ ',')).length
      if 1 ≤ t2 ∧ t2 < r2.length then some (5 + t1 + 1 + t2 + 1) else none
    else none
  else none

/-- Scanner realizing `input.replace(/data:\s*[^;]+;[^,]+,/gi, '')`. -/
def removeDataUrls (l : List Char) : List Char :=
  runScan (fun _ m => dataUrlMatchLen m) 0 none l

/-- The negative lookahead `(?!\/?(t1|t2|...)\b)` evaluated on the characters
following a `<`: true when some allowed tag (after an optional `/`) matches
case-insensitively and is followed by a word boundary. -/
def tagLookahead (tags : List String) (cs : List Char) : Bool :=
  let cs' := match cs with
    | c :: rest => if c = '/' then rest else c :: rest
    | [] => []
  tags.any (fun t =>
    ciStarts (t.data.map Char.toUpper) cs' && boundaryRight (cs'.drop t.data.length))

/-- The matcher for `/<(?!\/?(tags)\b)[^>]*>/i`: a `<` at which the negative
lookahead fails (no allowed tag follows) and whose suffix still contains a
`>` matches through that first `>`. -/
def tagStep (tags : List String) (_ : Option Char) (l : List Char) : Option Nat :=
  match l with
  | [] => none
  | c :: cs =>
    if c = '<' && !tagLookahead tags cs then
      let t := cs.takeWhile (fun x => x ≠ '>')
      if t.length < cs.length then some (t.length + 2) else none
    else none

/-- Scanner realizing the allowed-tag filter
`input.replace(/<(?!\/?(tags)\b)[^>]*>/gi, '')`. -/
def tagFilter (tags : List String) (l : List Char) : List Char :=
  runScan (tagStep tags) 0 none l

/-- `\w` or `-`, the character class `[\w-]` of the attribute filter. -/
def isWordDash (c : Char) : Bool :=
  isWordChar c || c == '-'

/-- Length of a match of `/\s(?!attrs)[\w-]+\s*=\s*"[^"]*"/i` anchored at the
head of `l`. -/
def attrMatchLen (attrs : List String) (l : List Char) : Option Nat :=
  match l with
  | [] => none
  | c :: cs =>
    if isJsSpace c then
      if attrs.any (fun a => ciStarts (a.data.map Char.toUpper) cs) then none
      else
        let k := (cs.takeWhile isWordDash).length
        if 1 ≤ k then
          let r := cs.drop k
          let j1 := (r.takeWhile isJsSpace).length
          match r.drop j1 with
          | e :: r2 =>
            if e = '=' then
              let j2 := (r2.takeWhile isJsSpace).length
              match r2.drop j2 with
              | q :: r3 =>
                if q = doubleQuoteChar then
                  let v := (r3.takeWhile (fun x => x ≠ doubleQuoteChar)).length
                  if v < r3.length then some (1 + k + j1 + 1 + j2 + 1 + v + 1)
                  else none
                else none
              | [] => none
            else none
          | [] => none
        else none
    else none

/-- Scanner realizing the disallowed-attribute filter
`input.replace(/\s(?!attrs)[\w-]+\s*=\s*"[^"]*"/gi, '')`. -/
def attrFilter (attrs : List String) (l : List Char) : List Char :=
  runScan (fun _ m => attrMatchLen attrs m) 0 none l

/-- `SanitizationOptions` after the constructor's merge with
`DEFAULT_SANITIZATION_OPTIONS` (so every field is present; `maxLength` keeps
its JavaScript falsiness: `none` or `some 0` disables truncation). -/
structure SanitizationOptions where
  allowHtml : Bool
  maxLength : Option Nat
  trimWhitespace : Bool
  removeControlChars : Bool
  normalizeUnicode : Bool
  preventXSSOpt : Bool
  preventSQLInjectionOpt : Bool
  allowedTags : List String
  allowedAttributes : List String
deriving DecidableEq

/-- `DEFAULT_SANITIZATION_OPTIONS`. -/
def DEFAULT_SANITIZATION_OPTIONS : SanitizationOptions :=
  ⟨false, some 10000, true, true, true, true, true, [], []⟩

/-- `sanitized.normalize('NFC')`.  Unicode canonical composition is the
identity on ASCII text and never produces an ASCII character from non-ASCII
input; all concrete inputs in this development are ASCII, so the step is
modelled as the identity. -/
def nfcNormalize (l : List Char) : List Char := l

/-- `InputSanitizer.sanitizeHTML` (the `allowHtml = true` branch): remove
script tags, event-handler attributes, `javascript:` protocols and `data:`
URLs, then apply the allowed-tag and allowed-attribute filters when the
corresponding lists are non-empty.  (The `||`-fallback lists in the source
are unreachable: after the constructor's merge both fields are always
present, and an empty array is truthy in JavaScript.) -/
def sanitizeHTML (opts : SanitizationOptions) (l : List Char) : List Char :=
  let s := removeScriptTags l
  let s := removeEventHandlers s
  let s := removeCISub 'J' ("AVASCRIPT:".data) s
  let s := removeDataUrls s
  let s := if 0 < opts.allowedTags.length then tagFilter opts.allowedTags s else s
  if 0 < opts.allowedAttributes.length then attrFilter opts.allowedAttributes s
  else s

/-- `InputSanitizer.sanitizeString`, on character lists: trim, strip control
characters, normalize, truncate to `maxLength`, escape for XSS, strip SQL
patterns, then strip or sanitize HTML — each stage exactly when its toggle is
set. -/
def sanitizeChars (opts : SanitizationOptions) (l : List Char) : List Char :=
  let s := if opts.trimWhitespace then jsTrim l else l
  let s := if opts.removeControlChars then s.filter (fun c => !isStrippedControl c) else s
  let s := if opts.normalizeUnicode then nfcNormalize s else s
  let s := match opts.maxLength with
    | some m => if 0 < m ∧ m < s.length then s.take m else s
    | none => s
  let s := if opts.preventXSSOpt then preventXSS s else s
  let s := if opts.preventSQLInjectionOpt then preventSQLInjection s else s
  if !opts.allowHtml then stripHTML s else sanitizeHTML opts s

/-- `sanitizeString` with the default options (the module's `defaultSanitizer`
and the convenience function `sanitizeString(input)`). -/
def sanitizeString (s : String) : String :=
  ⟨sanitizeChars DEFAULT_SANITIZATION_OPTIONS s.data⟩

/-- Exact (case-sensitive) prefix test on character lists. -/
def startsWithChars : List Char → List Char → Bool
  | [], _ => true
  | _ :: _, [] => false
  | p :: ps, c :: cs => (p == c) && startsWithChars ps cs

/-- Exact substring occurrence test on character lists. -/
def containsSub (pat : List Char) : List Char → Bool
  | [] => startsWithChars pat []
  | c :: cs => startsWithChars pat (c :: cs) || containsSub pat cs

/-- Case-insensitive substring occurrence of the pattern `p :: ps`
(given upper-case). -/
def containsCI (p : Char) (ps : List Char) : List Char → Bool
  | [] => false
  | c :: cs => ciStarts (p :: ps) (c :: cs) || containsCI p ps cs

/-- Case-insensitive substring occurrence of a keyword given as a string. -/
def containsCIStr (kw : String) (l : List Char) : Bool :=
  match kw.data with
  | [] => true
  | k :: ks => containsCI k ks l

/-- The SQL keywords removed by `preventSQLInjection`. -/
def sqlKeywordList : List String :=
  ["UNION", "SELECT", "INSERT", "UPDATE", "DELETE", "DROP", "CREATE",
   "ALTER", "EXEC", "SCRIPT"]

/-- An HTML-special character (`& < > " '`), for stating the idempotence
claim's "no HTML characters" hypothesis. -/
def isHtmlSpecial (c : Char) : Bool :=
  c == '&' || c == '<' || c == '>' || c == doubleQuoteChar || c == singleQuoteChar

/-- An ASCII control character (for the claim's "no control characters"). -/
def isAsciiControl (c : Char) : Bool :=
  c.val < 32 || c.val == 127

/-- A character that every stage of the default sanitization pipeline leaves
in place: not a stripped control character and not among the characters the
XSS escape or the SQL filter rewrites
(`& < > " ' / `` = ; - *`). -/
def pipelineInertChar (c : Char) : Bool :=
  !isStrippedControl c && !(c == '&') && !(c == '<') && !(c == '>') &&
  !(c == doubleQuoteChar) && !(c == singleQuoteChar) && !(c == '/') &&
  !(c == backtickChar) && !(c == '=') && !(c == ';') && !(c == '-') &&
  !(c == '*')

/-! ### JWT service (`src/lib/jwt.ts`)

The `jose` HMAC signature is modelled symbolically: a signed token carries
its payload and the key it was signed with, and `jwtVerify` succeeds exactly
when the verification key equals the signing key and the registered claims
(issuer, audience, expiry) check out.  Seconds are used inside claims
(`jose` numeric dates), milliseconds in `isTokenExpired`/`isTokenExpiringSoon`
(`Date.now()`). -/

/-- `type: 'access' | 'refresh'`. -/
inductive TokenType where
  | access
  | refresh
deriving DecidableEq

/-- The signed JWT payload: the caller's fields plus the registered claims
set by the sign functions. -/
structure TokenPayload where
  userId : String
  email : String
  type : TokenType
  sessionId : Option String
  iss : String
  aud : String
  iat : Int
  exp : Option Int
  jti : String
deriving DecidableEq

/-- A token as produced by `SignJWT.sign`: payload plus signing key
(symbolic HMAC). -/
structure SignedJWT where
  payload : TokenPayload
  key : String
deriving DecidableEq

/-- The two symmetric secrets: `accessTokenSecret = JWT_SECRET` and
`refreshTokenSecret = JWT_REFRESH_SECRET || JWT_SECRET` (so the two fields
may coincide). -/
structure JWTSecrets where
  access : String
  refresh : String
deriving DecidableEq

/-- `JWTService.ISSUER`. -/
def ISSUER : String := "hayl-energy-ai"

/-- `JWTService.AUDIENCE`. -/
def AUDIENCE : String := "hayl-energy-ai-users"

/-- `jose.jwtVerify(token, key, {issuer, audience})` at time `now` (seconds):
succeeds iff the signature (symbolically: the key), issuer and audience match
and the `exp` claim, when present, lies in the future. -/
def jwtVerify (t : SignedJWT) (key iss aud : String) (now : Int) : Option TokenPayload :=
  if t.key = key ∧ t.payload.iss = iss ∧ t.payload.aud = aud ∧
      (match t.payload.exp with
       | some e => decide (now < e)
       | none => true) = true then
    some t.payload
  else none

/-- `JWTService.signAccessToken` at time `now` with the generated `jti`:
tags the payload `type = access`, sets issuer/audience, `iat = now`,
`exp = now + 15min`, and signs with the access secret. -/
def signAccessToken (sec : JWTSecrets) (userId email : String)
    (sessionId : Option String) (now : Int) (jti : String) : SignedJWT :=
  ⟨⟨userId, email, TokenType.access, sessionId, ISSUER, AUDIENCE, now,
    some (now + 900), jti⟩, sec.access⟩

/-- `JWTService.signRefreshToken`: `type = refresh`, `exp = now + 7d`,
signed with the refresh secret. -/
def signRefreshToken (sec : JWTSecrets) (userId email : String)
    (sessionId : Option String) (now : Int) (jti : String) : SignedJWT :=
  ⟨⟨userId, email, TokenType.refresh, sessionId, ISSUER, AUDIENCE, now,
    some (now + 604800), jti⟩, sec.refresh⟩

/-- `JWTService.verifyAccessToken`: verify against the access secret, then
return `null` unless `type === 'access'`; any `jwtVerify` failure is caught
and becomes `null`. -/
def verifyAccessToken (sec : JWTSecrets) (t : SignedJWT) (now : Int) :
    Option TokenPayload :=
  match jwtVerify t sec.access ISSUER AUDIENCE now with
  | some p => if p.type ≠ TokenType.access then none else some p
  | none => none

/-- `JWTService.verifyRefreshToken`, symmetric with the refresh secret and
`type === 'refresh'`. -/
def verifyRefreshToken (sec : JWTSecrets) (t : SignedJWT) (now : Int) :
    Option TokenPayload :=
  match jwtVerify t sec.refresh ISSUER AUDIENCE now with
  | some p => if p.type ≠ TokenType.refresh then none else some p
  | none => none

/-- `JWTService.isTokenExpired` at `nowMs` (milliseconds): a payload with a
missing (or JavaScript-falsy `0`) `exp` is reported expired; otherwise
compare `nowMs` with `exp * 1000`. -/
def isTokenExpired (p : TokenPayload) (nowMs : Int) : Bool :=
  match p.exp with
  | none => true
  | some e => if e = 0 then true else decide (e * 1000 ≤ nowMs)

/-- `JWTService.isTokenExpiringSoon` with `bufferMinutes`. -/
def isTokenExpiringSoon (p : TokenPayload) (nowMs : Int) (bufferMinutes : Int) : Bool :=
  match p.exp with
  | none => true
  | some e => if e = 0 then true else decide (e * 1000 - bufferMinutes * 60 * 1000 ≤ nowMs)

/-! ### Rate limiter (`src/lib/rate-limit.ts`) -/

/-- One counter of the `MemoryStore`: `{count, resetTime}`. -/
structure RLEntry where
  count : Nat
  resetTime : Int
deriving DecidableEq

/-- The `MemoryStore`'s backing object, as a partial map from keys. -/
def RLStore : Type := String → Option RLEntry

/-- The empty store. -/
def emptyRLStore : RLStore := fun _ => none

/-- `MemoryStore.cleanup`: delete every entry whose window has expired
(`resetTime <= now`). -/
def rlCleanup (now : Int) (s : RLStore) : RLStore := fun k =>
  match s k with
  | some e => if e.resetTime ≤ now then none else some e
  | none => none

/-- `MemoryStore.increment(key, windowMs)` at time `now`: start a fresh
counter when the key is absent or its window expired, else bump the count;
then run `cleanup` and return the (post-cleanup) entry under the key together
with the new store. -/
def rlIncrement (key : String) (windowMs : Int) (now : Int) (s : RLStore) :
    RLStore × Option RLEntry :=
  let e : RLEntry :=
    match s key with
    | none => ⟨1, now + windowMs⟩
    | some old => if old.resetTime ≤ now then ⟨1, now + windowMs⟩
                  else ⟨old.count + 1, old.resetTime⟩
  let s2 : RLStore := fun k => if k = key then some e else s k
  let s3 := rlCleanup now s2
  (s3, s3 key)

/-- The record returned by `rateLimiter.check`. -/
structure CheckResult where
  allowed : Bool
  remaining : Int
  resetTime : Int
deriving DecidableEq

/-- `rateLimiter.check` for a limiter configured with `maxRequests` and
`windowMs`, for the client key `key`:
`allowed = count <= maxRequests`, `remaining = max(0, maxRequests - count)`.
(`none` corresponds to the JavaScript crash that would follow if `increment`
returned no entry; it never occurs for a positive window.) -/
def rlCheck (maxRequests : Nat) (windowMs : Int) (key : String) (now : Int)
    (s : RLStore) : RLStore × Option CheckResult :=
  match rlIncrement key windowMs now s with
  | (s2, some e) =>
    (s2, some ⟨decide (e.count ≤ maxRequests),
               max 0 ((maxRequests : Int) - (e.count : Int)), e.resetTime⟩)
  | (s2, none) => (s2, none)

/-- Consecutive `check` calls against one limiter for the key `key`, at the
given times, threading the store; returns the final store and the results in
call order. -/
def rlCheckRun (maxRequests : Nat) (windowMs : Int) (key : String) :
    List Int → RLStore → RLStore × List (Option CheckResult)
  | [], s => (s, [])
  | t :: ts, s =>
    let p := rlCheck maxRequests windowMs key t s
    let q := rlCheckRun maxRequests windowMs key ts p.1
    (q.1, p.2 :: q.2)

/-! ### Client-key derivation (`defaultKeyGenerator` in `rate-limit.ts`,
`AuthLogger.extractClientInfo` in `cors.ts`) -/

/-- The header fields and transport peer address a request carries, each
`none` when absent. -/
structure ReqInfo where
  xForwardedFor : Option String
  xRealIp : Option String
  xClientIp : Option String
  peerIp : Option String
  userAgent : Option String
deriving DecidableEq

/-- First truthy value of a chain of JavaScript `||`s over string-or-undefined
operands (the empty string is falsy). -/
def firstTruthy : List (Option String) → Option String
  | [] => none
  | o :: os =>
    match o with
    | some s => if s = "" then firstTruthy os else some s
    | none => firstTruthy os

/-- `forwarded.split(',')[0].trim()`: the first comma-separated entry,
trimmed. -/
def xffFirst (s : String) : String :=
  ⟨jsTrim (s.data.takeWhile (fun c => c ≠ ','))⟩

/-- The header part of both derivations:
`forwarded?.split(',')[0]?.trim() || realIp || clientIp`. -/
def headerIp (h : ReqInfo) : Option String :=
  firstTruthy [h.xForwardedFor.map xffFirst, h.xRealIp, h.xClientIp]

/-- `defaultKeyGenerator`: header chain (no peer fallback), else
`"unknown"`; both loopback spellings are normalized to `localhost`; the
result is prefixed with `rate_limit:`. -/
def defaultKeyGenerator (h : ReqInfo) : String :=
  let ip := (headerIp h).getD "unknown"
  let ip := if ip = "::1" ∨ ip = "127.0.0.1" then "localhost" else ip
  "rate_limit:" ++ ip

/-- `authRateLimit.check`: 5 requests / 15 minutes, keyed by
`defaultKeyGenerator`, against the module-level shared store. -/
def authRateLimitCheck (h : ReqInfo) (now : Int) (s : RLStore) :
    RLStore × Option CheckResult :=
  rlCheck 5 (15 * 60 * 1000) (defaultKeyGenerator h) now s

/-- `signupRateLimit.check`: 3 requests / 1 hour, same key generator, same
shared store. -/
def signupRateLimitCheck (h : ReqInfo) (now : Int) (s : RLStore) :
    RLStore × Option CheckResult :=
  rlCheck 3 (60 * 60 * 1000) (defaultKeyGenerator h) now s

/-- The IP component of `AuthLogger.extractClientInfo`: the same header chain
followed by the transport peer address (`(request as any).ip`), else
`"unknown"`; only `::1` is rewritten, to `127.0.0.1`. -/
def extractClientIp (h : ReqInfo) : String :=
  let ip := (firstTruthy
    [h.xForwardedFor.map xffFirst, h.xRealIp, h.xClientIp, h.peerIp]).getD "unknown"
  if ip = "::1" then "127.0.0.1" else ip

/-- The user-agent component of `extractClientInfo`
(`request.headers.get('user-agent') || 'unknown'`). -/
def extractUserAgent (h : ReqInfo) : String :=
  (firstTruthy [h.userAgent]).getD "unknown"

/-! ### Auth event logger (`class AuthLogger` in `src/lib/cors.ts`) -/

/-- The `AuthEvent` union type. -/
inductive AuthEvent where
  | login_attempt
  | login_success
  | login_failure
  | signup_attempt
  | signup_success
  | signup_failure
  | logout
  | token_refresh
  | password_reset_request
  | password_reset_success
  | account_locked
  | suspicious_activity
  | rate_limit_exceeded
  | invalid_token
  | token_expired
deriving DecidableEq

/-- An `AuthLogEntry`.  ISO-8601 timestamp strings are modelled by their
instants (milliseconds); the free-form `metadata` record is never read by the
alert logic and is omitted. -/
structure AuthLogEntry where
  timestamp : Int
  event : AuthEvent
  userId : Option String
  email : Option String
  ip : String
  userAgent : String
  success : Bool
  error : Option String
  sessionId : Option String
  duration : Option Int
deriving DecidableEq

/-- `SecurityAlert.level`. -/
inductive AlertLevel where
  | low
  | medium
  | high
  | critical
deriving DecidableEq

/-- A `SecurityAlert` (its `metadata` field, copied from the entry, is
omitted for the same reason as above). -/
structure SecurityAlert where
  level : AlertLevel
  type : String
  message : String
  userId : Option String
  ip : String
  timestamp : Int
deriving DecidableEq

/-- The logger's mutable state: the event buffer and the alert buffer. -/
structure LoggerState where
  logBuffer : List AuthLogEntry
  alertBuffer : List SecurityAlert
deriving DecidableEq

/-- A fresh `AuthLogger`. -/
def emptyLogger : LoggerState := ⟨[], []⟩

/-- `if (buf.length > n) buf = buf.slice(-n)`: keep the most recent `n`
entries once the bound is exceeded. -/
def sliceLast {α : Type} (n : Nat) (l : List α) : List α :=
  if n < l.length then l.drop (l.length - n) else l

/-- JavaScript truthiness of an optional string (`undefined` and `""` are
falsy). -/
def strTruthy : Option String → Bool
  | some s => !(s == "")
  | none => false

/-- `AuthLogger.getRecentFailures(ip, email)` evaluated over a buffer at time
`now`: `login_failure` entries of the trailing five minutes from the same IP,
or with the same email when one was supplied. -/
def getRecentFailures (buf : List AuthLogEntry) (now : Int) (ip : String)
    (email : Option String) : Nat :=
  (buf.filter (fun e =>
    decide (now - 5 * 60 * 1000 < e.timestamp) &&
    decide (e.event = AuthEvent.login_failure) &&
    (decide (e.ip = ip) || (strTruthy email && decide (e.email = email))))).length

/-- `AuthLogger.getRecentSignups(ip)`: same-IP `signup_attempt` entries of the
trailing hour. -/
def getRecentSignups (buf : List AuthLogEntry) (now : Int) (ip : String) : Nat :=
  (buf.filter (fun e =>
    decide (now - 60 * 60 * 1000 < e.timestamp) &&
    decide (e.event = AuthEvent.signup_attempt) &&
    decide (e.ip = ip))).length

/-- `AuthLogger.getRecentTokenIssues(ip)`: same-IP `invalid_token` or
`token_expired` entries of the trailing hour. -/
def getRecentTokenIssues (buf : List AuthLogEntry) (now : Int) (ip : String) : Nat :=
  (buf.filter (fun e =>
    decide (now - 60 * 60 * 1000 < e.timestamp) &&
    (decide (e.event = AuthEvent.invalid_token) ||
     decide (e.event = AuthEvent.token_expired)) &&
    decide (e.ip = ip))).length

/-- `AuthLogger.isNewDevice`: once the user has more than one recorded
`login_success`, a `userAgent:ip` pair not seen before counts as new. -/
def isNewDevice (buf : List AuthLogEntry) (userId : String) (userAgent ip : String) : Bool :=
  let userLogins := buf.filter (fun e =>
    decide (e.userId = some userId) && decide (e.event = AuthEvent.login_success))
  if 1 < userLogins.length then
    !(userLogins.map (fun e => e.userAgent ++ ":" ++ e.ip)).contains (userAgent ++ ":" ++ ip)
  else false

/-- `AuthLogger.createSecurityAlert`: push the alert, then cap the alert
buffer at 100 entries.  (The immediate console/alert forwarding of
high/critical alerts has no effect on the state.) -/
def createSecurityAlert (level : AlertLevel) (ty msg : String)
    (entry : AuthLogEntry) (st : LoggerState) : LoggerState :=
  let alert : SecurityAlert := ⟨level, ty, msg, entry.userId, entry.ip, entry.timestamp⟩
  { st with alertBuffer := sliceLast 100 (st.alertBuffer ++ [alert]) }

/-- First guard of `checkSecurityAlerts`: multiple failed login attempts
(the recency counts see the buffer that already contains the new entry, and
`Date.now()` coincides with the entry's timestamp). -/
def csaLoginFailure (entry : AuthLogEntry) (st : LoggerState) : LoggerState :=
  if entry.event = AuthEvent.login_failure then
    let n := getRecentFailures st.logBuffer entry.timestamp entry.ip entry.email
    let stA :=
      if 3 ≤ n then
        createSecurityAlert AlertLevel.medium "multiple_login_failures"
          (toString n ++ " failed login attempts") entry st
      else st
    if 5 ≤ n then
      createSecurityAlert AlertLevel.high "potential_brute_force"
        (toString n ++ " failed login attempts - possible brute force") entry stA
    else stA
  else st

/-- Second guard: rapid signup attempts from the same IP. -/
def csaSignup (entry : AuthLogEntry) (st : LoggerState) : LoggerState :=
  if entry.event = AuthEvent.signup_attempt then
    let n := getRecentSignups st.logBuffer entry.timestamp entry.ip
    if 3 ≤ n then
      createSecurityAlert AlertLevel.medium "rapid_signup_attempts"
        (toString n ++ " signup attempts from same IP") entry st
    else st
  else st

/-- Third guard: successful login from a new device/location. -/
def csaNewDevice (entry : AuthLogEntry) (st : LoggerState) : LoggerState :=
  if entry.event = AuthEvent.login_success ∧ strTruthy entry.userId = true then
    match entry.userId with
    | some uid =>
      if isNewDevice st.logBuffer uid entry.userAgent entry.ip then
        createSecurityAlert AlertLevel.low "new_device_login"
          "Login from new device/location" entry st
      else st
    | none => st
  else st

/-- Fourth guard: suspicious token activity. -/
def csaToken (entry : AuthLogEntry) (st : LoggerState) : LoggerState :=
  if entry.event = AuthEvent.invalid_token ∨ entry.event = AuthEvent.token_expired then
    let n := getRecentTokenIssues st.logBuffer entry.timestamp entry.ip
    if 5 ≤ n then
      createSecurityAlert AlertLevel.medium "token_manipulation"
        "Multiple token validation failures" entry st
    else st
  else st

/-- `AuthLogger.checkSecurityAlerts`, run after an entry is appended: the
four independent guards in source order. -/
def checkSecurityAlerts (entry : AuthLogEntry) (st : LoggerState) : LoggerState :=
  csaToken entry (csaNewDevice entry (csaSignup entry (csaLoginFailure entry st)))

/-- The data record passed to `logAuthEvent` (its `metadata` is omitted). -/
structure LogData where
  success : Bool
  userId : Option String
  email : Option String
  error : Option String
  sessionId : Option String
  duration : Option Int
deriving DecidableEq

/-- `AuthLogger.logAuthEvent` at time `now`: build the entry from the
request's client info, append it, cap the buffer at 1000 entries
(`maxBufferSize`), then derive security alerts. -/
def logAuthEvent (event : AuthEvent) (req : ReqInfo) (data : LogData)
    (now : Int) (st : LoggerState) : LoggerState :=
  let entry : AuthLogEntry :=
    ⟨now, event, data.userId, data.email, extractClientIp req,
     extractUserAgent req, data.success, data.error, data.sessionId,
     data.duration⟩
  let lb := sliceLast 1000 (st.logBuffer ++ [entry])
  checkSecurityAlerts entry ⟨lb, st.alertBuffer⟩

/-! ### Login route handler (`src/app/api/auth/login/route.ts`) -/

/-- The user-store row selected by the login handler. -/
structure UserRec where
  id : String
  email : String
  password : String
  name : Option String
  emailVerified : Bool
  createdAt : Int
deriving DecidableEq

/-- The observable part of a login response: HTTP status and the JSON body's
discriminating fields. -/
structure LoginResponse where
  status : Nat
  success : Bool
  error : Option String
  code : Option String
  message : Option String
  token : Option String
deriving DecidableEq

/-- The decision logic of `POST /api/auth/login`, parametrized by its
collaborators: whether the rate limiter rejected, the (sanitized, validated)
credentials, the user store's `findUnique` on the email, and
`bcrypt.compare`.  `accessToken` stands for the token pair minted on
success. -/
def loginPOST (rateLimited : Bool) (validated : Option (String × String))
    (findByEmail : String → Option UserRec)
    (bcryptCompare : String → String → Bool)
    (accessToken : String) : LoginResponse :=
  if rateLimited then
    ⟨429, false, some "Too many requests", none,
     some "Rate limit exceeded. Please try again later.", none⟩
  else
    match validated with
    | none => ⟨400, false, some "Validation failed", none, none, none⟩
    | some (email, password) =>
      match findByEmail email with
      | none => ⟨401, false, some "Invalid email or password", none, none, none⟩
      | some user =>
        if !bcryptCompare password user.password then
          ⟨401, false, some "Invalid email or password", none, none, none⟩
        else if !user.emailVerified then
          ⟨403, false, some "Please verify your email before logging in",
           some "EMAIL_NOT_VERIFIED", none, none⟩
        else
          ⟨200, true, none, none, some "Login successful", some accessToken⟩

/-! ### `InputSanitizer.sanitizeObject` -/

/-- A JavaScript value as dispatched on by `sanitizeObject`'s `typeof`
checks: `null`, `undefined`, strings, numbers, booleans, arrays, plain
objects (`jobj`, their enumerable own entries in order), non-plain objects
(`jexotic`: `Date`, `Map`, class instances — any other value of
`typeof 'object'`; the `tag` stands for their identity and internal state,
such as a `Map`'s contents, which is *not* part of their enumerable own
entries `fields`), and the fall-through values whose `typeof` is none of the
above (functions, symbols, bigints), represented opaquely by `jother`. -/
inductive JValue where
  | jnull
  | jundef
  | jstr (s : List Char)
  | jnum (n : Int)
  | jbool (b : Bool)
  | jarr (xs : List JValue)
  | jobj (fields : List (List Char × JValue))
  | jexotic (tag : String) (fields : List (List Char × JValue))
  | jother (tag : String)

/-- JavaScript property assignment `obj[k] = v` on a plain object: an
existing key keeps its position and gets the new value, a new key is appended
in insertion order. -/
def setProp (fields : List (List Char × JValue)) (k : List Char) (v : JValue) :
    List (List Char × JValue) :=
  if fields.any (fun p => decide (p.1 = k)) then
    fields.map (fun p => if p.1 = k then (p.1, v) else p)
  else fields ++ [(k, v)]

mutual

/-- `InputSanitizer.sanitizeObject`: sanitize string leaves, recurse through
arrays, and rebuild every `typeof 'object'` value — plain or not — as a new
plain object from its `Object.entries` (sanitizing keys too); only the
`typeof` fall-through values reach the final `return obj` unchanged.  A
non-plain object therefore comes back as a plain object of its enumerable
own entries, its internal state (the `tag`) dropped. -/
def sanitizeObject (opts : SanitizationOptions) : JValue → JValue
  | JValue.jnull => JValue.jnull
  | JValue.jundef => JValue.jundef
  | JValue.jstr s => JValue.jstr (sanitizeChars opts s)
  | JValue.jnum n => JValue.jnum n
  | JValue.jbool b => JValue.jbool b
  | JValue.jarr xs => JValue.jarr (sanitizeList opts xs)
  | JValue.jobj fs => JValue.jobj (buildFields opts fs [])
  | JValue.jexotic _ fs => JValue.jobj (buildFields opts fs [])
  | JValue.jother t => JValue.jother t

/-- `obj.map(item => this.sanitizeObject(item))`. -/
def sanitizeList (opts : SanitizationOptions) : List JValue → List JValue
  | [] => []
  | v :: vs => sanitizeObject opts v :: sanitizeList opts vs

/-- The `for (const [key, value] of Object.entries(obj))` loop building the
sanitized object by assignment. -/
def buildFields (opts : SanitizationOptions) :
    List (List Char × JValue) → List (List Char × JValue) → List (List Char × JValue)
  | [], acc => acc
  | (k, v) :: rest, acc =>
    buildFields opts rest (setProp acc (sanitizeChars opts k) (sanitizeObject opts v))

end

/-- Folding JavaScript assignment over an already-sanitized entry list
(used to state what `sanitizeObject` does on objects). -/
def jsAssignAll (ps : List (List Char × JValue)) : List (List Char × JValue) :=
  ps.foldl (fun acc p => setProp acc p.1 p.2) []

/-! ## Theorems -/

/-- `sanitizeList` is `List.map` of `sanitizeObject`. -/
theorem sanitizeList_eq_map (opts : SanitizationOptions) (xs : List JValue) :
    sanitizeList opts xs = xs.map (sanitizeObject opts) := by
  induction xs with
  | nil => rfl
  | cons v vs ih => simp [sanitizeList, ih]

/-- `buildFields` is the assignment fold over the sanitized entries. -/
theorem buildFields_eq_foldl (opts : SanitizationOptions)
    (fs : List (List Char × JValue)) (acc : List (List Char × JValue)) :
    buildFields opts fs acc =
      (fs.map (fun p => (sanitizeChars opts p.1, sanitizeObject opts p.2))).foldl
        (fun a p => setProp a p.1 p.2) acc := by
  induction fs generalizing acc with
  | nil => rfl
  | cons p rest ih => cases p with
    | mk k v => simp [buildFields, ih]

/-- C8 (amended).  `sanitizeObject` applies `sanitizeString` to every string
leaf and every object key, recurses through arrays, rebuilds *every*
`typeof 'object'` value — plain or not — as a new plain object by JavaScript
assignment over its sanitized enumerable own entries (so a non-plain object
such as a `Date`, `Map` or class instance comes back as a plain object, a
`Map` losing its content), and returns numbers, booleans, `null`,
`undefined` and only the `typeof` fall-through values
(functions/symbols/bigints) unchanged. -/
theorem C8_sanitizeObject_recursion (opts : SanitizationOptions) :
    sanitizeObject opts JValue.jnull = JValue.jnull ∧
    sanitizeObject opts JValue.jundef = JValue.jundef ∧
    (∀ n : Int, sanitizeObject opts (JValue.jnum n) = JValue.jnum n) ∧
    (∀ b : Bool, sanitizeObject opts (JValue.jbool b) = JValue.jbool b) ∧
    (∀ s : List Char,
      sanitizeObject opts (JValue.jstr s) = JValue.jstr (sanitizeChars opts s)) ∧
    (∀ xs : List JValue,
      sanitizeObject opts (JValue.jarr xs) =
        JValue.jarr (xs.map (sanitizeObject opts))) ∧
    (∀ fs : List (List Char × JValue),
      sanitizeObject opts (JValue.jobj fs) =
        JValue.jobj (jsAssignAll
          (fs.map (fun p => (sanitizeChars opts p.1, sanitizeObject opts p.2))))) ∧
    (∀ (t : String) (fs : List (List Char × JValue)),
      sanitizeObject opts (JValue.jexotic t fs) =
        JValue.jobj (jsAssignAll
          (fs.map (fun p => (sanitizeChars opts p.1, sanitizeObject opts p.2))))) ∧
    (∀ t : String, sanitizeObject opts (JValue.jother t) = JValue.jother t) := by
  refine ⟨rfl, rfl, fun _ => rfl, fun _ => rfl, fun _ => rfl, ?_, ?_, ?_,
    fun _ => rfl⟩
  · intro xs
    simp [sanitizeObject, sanitizeList_eq_map]
  · intro fs
    simp [sanitizeObject, jsAssignAll, buildFields_eq_foldl]
  · intro t fs
    simp [sanitizeObject, jsAssignAll, buildFields_eq_foldl]

/-- C8 counterexample.  A non-plain object is not returned unchanged: a
`Map` (a `typeof 'object'` value with no enumerable own entries) goes
through the `Object.entries` rebuild loop and comes back as a fresh empty
plain object, its content dropped. -/
theorem C8_counterexample :
    sanitizeObject DEFAULT_SANITIZATION_OPTIONS (JValue.jexotic "Map" []) =
      JValue.jobj [] ∧
    sanitizeObject DEFAULT_SANITIZATION_OPTIONS (JValue.jexotic "Map" []) ≠
      JValue.jexotic "Map" [] := by
  have h1 : sanitizeObject DEFAULT_SANITIZATION_OPTIONS
      (JValue.jexotic "Map" []) = JValue.jobj [] := by
    simp [sanitizeObject, buildFields]
  refine ⟨h1, ?_⟩
  rw [h1]
  intro h
  exact JValue.noConfusion h

/-- C10.  A token payload without an `exp` claim is treated as already
expired: `isTokenExpired` is true, and `isTokenExpiringSoon` is true for
every buffer. -/
theorem C10_missing_exp_is_expired (p : TokenPayload) (nowMs bufferMinutes : Int)
    (h : p.exp = none) :
    isTokenExpired p nowMs = true ∧
    isTokenExpiringSoon p nowMs bufferMinutes = true := by
  simp [isTokenExpired, isTokenExpiringSoon, h]

/-- Witness for C10 at a concrete payload. -/
theorem C10_missing_exp_is_expired_witness :
    isTokenExpired
      ⟨"user-1", "a@b.com", TokenType.access, none, ISSUER, AUDIENCE, 0, none, "jti-1"⟩
      123456 = true ∧
    isTokenExpiringSoon
      ⟨"user-1", "a@b.com", TokenType.access, none, ISSUER, AUDIENCE, 0, none, "jti-1"⟩
      123456 5 = true :=
  C10_missing_exp_is_expired
    ⟨"user-1", "a@b.com", TokenType.access, none, ISSUER, AUDIENCE, 0, none, "jti-1"⟩
    123456 5 rfl

/-- C1.  Round-trip: verifying a freshly signed access token (before its
expiry) returns the payload with the caller's `userId`, `email` and
`sessionId` and `type = access`; and type segregation: a token signed by
`signAccessToken` never verifies as a refresh token, nor a
`signRefreshToken` token as an access token, at any time and for any secret
configuration (including the refresh-secret-equals-access-secret fallback). -/
theorem C1_token_roundtrip_and_type_segregation (sec : JWTSecrets)
    (uid em : String) (sid : Option String) (now : Int) (jtiStr : String)
    (t : Int) (ht : t < now + 900) :
    verifyAccessToken sec (signAccessToken sec uid em sid now jtiStr) t =
      some ⟨uid, em, TokenType.access, sid, ISSUER, AUDIENCE, now,
        some (now + 900), jtiStr⟩ ∧
    (∀ t2 : Int,
      verifyRefreshToken sec (signAccessToken sec uid em sid now jtiStr) t2 = none) ∧
    (∀ t3 : Int,
      verifyAccessToken sec (signRefreshToken sec uid em sid now jtiStr) t3 = none) := by
  refine ⟨?_, ?_, ?_⟩
  · simp [verifyAccessToken, signAccessToken, jwtVerify, ht]
  · intro t2
    simp only [verifyRefreshToken, signAccessToken, jwtVerify]
    split
    next p heq =>
      split at heq
      · injection heq with hp
        subst hp
        simp
      · exact Option.noConfusion heq
    next => rfl
  · intro t3
    simp only [verifyAccessToken, signRefreshToken, jwtVerify]
    split
    next p heq =>
      split at heq
      · injection heq with hp
        subst hp
        simp
      · exact Option.noConfusion heq
    next => rfl

/-- Witness for C1 at concrete secrets, identity and times (covering both a
distinct refresh secret and, through the theorem's generality, the fallback
case). -/
theorem C1_token_roundtrip_and_type_segregation_witness :
    verifyAccessToken ⟨"sA", "sR"⟩
      (signAccessToken ⟨"sA", "sR"⟩ "u1" "a@b.com" (some "sess") 1000 "j1") 1500 =
      some ⟨"u1", "a@b.com", TokenType.access, some "sess", ISSUER, AUDIENCE,
        1000, some 1900, "j1"⟩ ∧
    (∀ t2 : Int, verifyRefreshToken ⟨"sA", "sR"⟩
      (signAccessToken ⟨"sA", "sR"⟩ "u1" "a@b.com" (some "sess") 1000 "j1") t2 = none) ∧
    (∀ t3 : Int, verifyAccessToken ⟨"sA", "sR"⟩
      (signRefreshToken ⟨"sA", "sR"⟩ "u1" "a@b.com" (some "sess") 1000 "j1") t3 = none) :=
  C1_token_roundtrip_and_type_segregation ⟨"sA", "sR"⟩ "u1" "a@b.com"
    (some "sess") 1000 "j1" 1500 (by decide)

/-- C4.  Login enumeration resistance: with the rate limiter passing and the
body validated, the response for an unknown email and the response for a
known email with a failing password comparison are the same record — in
particular both have status 401 and the error string
`"Invalid email or password"`. -/
theorem C4_login_enumeration_resistance (email password : String)
    (find1 find2 : String → Option UserRec)
    (cmp : String → String → Bool) (u : UserRec) (tok1 tok2 : String)
    (h1 : find1 email = none) (h2 : find2 email = some u)
    (h3 : cmp password u.password = false) :
    loginPOST false (some (email, password)) find1 cmp tok1 =
      loginPOST false (some (email, password)) find2 cmp tok2 ∧
    (loginPOST false (some (email, password)) find1 cmp tok1).status = 401 ∧
    (loginPOST false (some (email, password)) find1 cmp tok1).error =
      some "Invalid email or password" := by
  simp [loginPOST, h1, h2, h3]

/-- Witness for C4 at a concrete pair of user stores. -/
theorem C4_login_enumeration_resistance_witness :
    loginPOST false (some ("a@b.com", "pw")) (fun _ => none)
      (fun _ _ => false) "t1" =
      loginPOST false (some ("a@b.com", "pw"))
        (fun _ => some ⟨"u1", "a@b.com", "hash", none, true, 0⟩)
        (fun _ _ => false) "t2" ∧
    (loginPOST false (some ("a@b.com", "pw")) (fun _ => none)
      (fun _ _ => false) "t1").status = 401 ∧
    (loginPOST false (some ("a@b.com", "pw")) (fun _ => none)
      (fun _ _ => false) "t1").error = some "Invalid email or password" :=
  C4_login_enumeration_resistance "a@b.com" "pw" (fun _ => none)
    (fun _ => some ⟨"u1", "a@b.com", "hash", none, true, 0⟩)
    (fun _ _ => false) ⟨"u1", "a@b.com", "hash", none, true, 0⟩ "t1" "t2"
    rfl rfl rfl

/-- A `check` on an absent key starts a fresh window: count 1,
`resetTime = now + windowMs`. -/
theorem rlCheck_fresh (m : Nat) (W : Int) (key : String) (now : Int)
    (s : RLStore) (h : s key = none) (hW : 0 < W) :
    (rlCheck m W key now s).2 =
      some ⟨decide (1 ≤ m), max 0 ((m : Int) - ((1 : Nat) : Int)), now + W⟩ ∧
    (rlCheck m W key now s).1 key = some ⟨1, now + W⟩ := by
  constructor <;>
    simp [rlCheck, rlIncrement, rlCleanup, h, show ¬ now + W ≤ now by omega]

/-- A `check` on a live entry increments its count and keeps its
`resetTime`. -/
theorem rlCheck_existing (m : Nat) (W : Int) (key : String) (now : Int)
    (s : RLStore) (c : Nat) (R : Int) (h : s key = some ⟨c, R⟩)
    (hR : now < R) :
    (rlCheck m W key now s).2 =
      some ⟨decide (c + 1 ≤ m), max 0 ((m : Int) - ((c + 1 : Nat) : Int)), R⟩ ∧
    (rlCheck m W key now s).1 key = some ⟨c + 1, R⟩ := by
  constructor <;>
    simp [rlCheck, rlIncrement, rlCleanup, h, show ¬ R ≤ now by omega]

/-- A `check` on an expired entry restarts the window. -/
theorem rlCheck_expired (m : Nat) (W : Int) (key : String) (now : Int)
    (s : RLStore) (c : Nat) (R : Int) (h : s key = some ⟨c, R⟩)
    (hR : R ≤ now) (hW : 0 < W) :
    (rlCheck m W key now s).2 =
      some ⟨decide (1 ≤ m), max 0 ((m : Int) - ((1 : Nat) : Int)), now + W⟩ ∧
    (rlCheck m W key now s).1 key = some ⟨1, now + W⟩ := by
  constructor <;>
    simp [rlCheck, rlIncrement, rlCleanup, h, hR, show ¬ now + W ≤ now by omega]

/-- C2.  Rate-limit ceiling and window reset for `maxRequests = 5`, window
`W`: from a fresh store, five consecutive calls inside the window are allowed
(with `remaining = max(0, 5 - count)` descending 4,3,2,1,0), the sixth is
rejected with `remaining = 0`, and a call after the stored `resetTime` starts
a fresh counter (count 1, hence `remaining = 4`) and is allowed again. -/
theorem C2_rate_limit_ceiling_and_reset (W : Int) (key : String)
    (t1 t2 t3 t4 t5 t6 t7 : Int) (hW : 0 < W)
    (h2 : t2 < t1 + W) (h3 : t3 < t1 + W) (h4 : t4 < t1 + W)
    (h5 : t5 < t1 + W) (h6 : t6 < t1 + W) (h7 : t1 + W < t7) :
    (rlCheckRun 5 W key [t1, t2, t3, t4, t5, t6, t7] emptyRLStore).2 =
      [some ⟨true, 4, t1 + W⟩, some ⟨true, 3, t1 + W⟩, some ⟨true, 2, t1 + W⟩,
       some ⟨true, 1, t1 + W⟩, some ⟨true, 0, t1 + W⟩, some ⟨false, 0, t1 + W⟩,
       some ⟨true, 4, t7 + W⟩] := by
  have h0 : emptyRLStore key = none := rfl
  obtain ⟨A1, B1⟩ := rlCheck_fresh 5 W key t1 emptyRLStore h0 hW
  obtain ⟨A2, B2⟩ := rlCheck_existing 5 W key t2 _ 1 (t1 + W) B1 (by omega)
  obtain ⟨A3, B3⟩ := rlCheck_existing 5 W key t3 _ 2 (t1 + W) B2 (by omega)
  obtain ⟨A4, B4⟩ := rlCheck_existing 5 W key t4 _ 3 (t1 + W) B3 (by omega)
  obtain ⟨A5, B5⟩ := rlCheck_existing 5 W key t5 _ 4 (t1 + W) B4 (by omega)
  obtain ⟨A6, B6⟩ := rlCheck_existing 5 W key t6 _ 5 (t1 + W) B5 (by omega)
  obtain ⟨A7, B7⟩ := rlCheck_expired 5 W key t7 _ 6 (t1 + W) B6 (by omega) hW
  simp only [rlCheckRun]
  rw [A1, A2, A3, A4, A5, A6, A7]
  norm_num

/-- Witness for C2 at `W = 900000` and concrete call times. -/
theorem C2_rate_limit_ceiling_and_reset_witness :
    (rlCheckRun 5 900000 "rate_limit:1.2.3.4" [0, 1, 2, 3, 4, 5, 900001]
        emptyRLStore).2 =
      [some ⟨true, 4, 900000⟩, some ⟨true, 3, 900000⟩, some ⟨true, 2, 900000⟩,
       some ⟨true, 1, 900000⟩, some ⟨true, 0, 900000⟩, some ⟨false, 0, 900000⟩,
       some ⟨true, 4, 1800001⟩] := by
  have := C2_rate_limit_ceiling_and_reset 900000 "rate_limit:1.2.3.4"
    0 1 2 3 4 5 900001 (by decide) (by decide) (by decide) (by decide)
    (by decide) (by decide) (by decide)
  simpa using this

/-- C3 counterexample.  The predefined limiters all key by
`defaultKeyGenerator` (client IP only, no scope) over one shared store, so an
`authRateLimit.check` changes what the very next `signupRateLimit.check`
returns for the same client: after one auth check the signup check reports
count 2 / `remaining = 1`, while on an untouched store it would report
count 1 / `remaining = 2` — refuting per-scope independence at this concrete
input. -/
theorem C3_counterexample :
    (authRateLimitCheck ⟨some "203.0.113.7", none, none, none, none⟩ 0
        emptyRLStore).1 (defaultKeyGenerator ⟨some "203.0.113.7", none, none, none, none⟩) =
      some ⟨1, 900000⟩ ∧
    (signupRateLimitCheck ⟨some "203.0.113.7", none, none, none, none⟩ 1
        (authRateLimitCheck ⟨some "203.0.113.7", none, none, none, none⟩ 0
          emptyRLStore).1).2 = some ⟨true, 1, 900000⟩ ∧
    (signupRateLimitCheck ⟨some "203.0.113.7", none, none, none, none⟩ 1
        emptyRLStore).2 = some ⟨true, 2, 3600001⟩ ∧
    (signupRateLimitCheck ⟨some "203.0.113.7", none, none, none, none⟩ 1
        (authRateLimitCheck ⟨some "203.0.113.7", none, none, none, none⟩ 0
          emptyRLStore).1).2 ≠
      (signupRateLimitCheck ⟨some "203.0.113.7", none, none, none, none⟩ 1
        emptyRLStore).2 := by
  refine ⟨?_, ?_, ?_, ?_⟩ <;> decide

/-- C3 (amended).  The predefined limiters share one store and one
scope-less key, so counters are keyed by client alone: starting from a store
with no entry for the client, an auth-limiter check followed by a
signup-limiter check inside the auth window yields count 2 (and
`remaining = 1`) for the signup check, rather than a fresh counter — while
the same signup check on the untouched store yields count 1 and
`remaining = 2`. -/
theorem C3_shared_counter_across_scopes (h : ReqInfo) (now1 now2 : Int)
    (s : RLStore) (h0 : s (defaultKeyGenerator h) = none)
    (hwin : now2 < now1 + 900000) :
    (authRateLimitCheck h now1 s).1 (defaultKeyGenerator h) =
      some ⟨1, now1 + 900000⟩ ∧
    (signupRateLimitCheck h now2 (authRateLimitCheck h now1 s).1).2 =
      some ⟨true, 1, now1 + 900000⟩ ∧
    (signupRateLimitCheck h now2 s).2 = some ⟨true, 2, now2 + 3600000⟩ := by
  obtain ⟨A1, B1⟩ := rlCheck_fresh 5 900000 (defaultKeyGenerator h) now1 s h0 (by omega)
  obtain ⟨A2, B2⟩ := rlCheck_existing 3 3600000 (defaultKeyGenerator h) now2 _
    1 (now1 + 900000) B1 (by omega)
  obtain ⟨A3, B3⟩ := rlCheck_fresh 3 3600000 (defaultKeyGenerator h) now2 s h0 (by omega)
  refine ⟨?_, ?_, ?_⟩
  · simpa [authRateLimitCheck] using B1
  · simpa [signupRateLimitCheck, authRateLimitCheck] using A2
  · simpa [signupRateLimitCheck] using A3

/-- Witness for the amended C3 at a concrete request and times. -/
theorem C3_shared_counter_across_scopes_witness :
    (authRateLimitCheck ⟨some "198.51.100.5", none, none, none, none⟩ 10
        emptyRLStore).1
      (defaultKeyGenerator ⟨some "198.51.100.5", none, none, none, none⟩) =
      some ⟨1, 900010⟩ ∧
    (signupRateLimitCheck ⟨some "198.51.100.5", none, none, none, none⟩ 20
        (authRateLimitCheck ⟨some "198.51.100.5", none, none, none, none⟩ 10
          emptyRLStore).1).2 = some ⟨true, 1, 900010⟩ ∧
    (signupRateLimitCheck ⟨some "198.51.100.5", none, none, none, none⟩ 20
        emptyRLStore).2 = some ⟨true, 2, 3600020⟩ :=
  C3_shared_counter_across_scopes ⟨some "198.51.100.5", none, none, none, none⟩
    10 20 emptyRLStore rfl (by decide)

/-- A truthy result of a `||` chain is unchanged by appending further
operands. -/
theorem firstTruthy_append_of_some (l l2 : List (Option String)) (v : String)
    (h : firstTruthy l = some v) : firstTruthy (l ++ l2) = some v := by
  induction l with
  | nil => exact Option.noConfusion h
  | cons o os ih =>
    cases o with
    | none => exact ih (by simpa [firstTruthy] using h)
    | some s =>
      by_cases hs : s = ""
      · subst hs
        simp only [firstTruthy, if_pos rfl] at h
        simp only [List.cons_append, firstTruthy, if_pos rfl]
        exact ih h
      · simp only [firstTruthy, if_neg hs] at h
        simp only [List.cons_append, firstTruthy, if_neg hs]
        exact h

/-- C9 (amended).  The logger and the rate limiter share the header
precedence (`X-Forwarded-For` first entry, then `X-Real-IP`, then
`X-Client-IP`): whenever that chain produces a non-loopback address `v`, the
logger's client IP is `v` and the rate-limit key is `"rate_limit:" ++ v`.
They differ beyond that: only the logger falls back to the transport peer
address, and loopback is normalized to `localhost` by the key generator but
to `127.0.0.1` by the logger. -/
theorem C9_header_chain_agreement (h : ReqInfo) (v : String)
    (hv : headerIp h = some v) (h1 : v ≠ "::1") (h2 : v ≠ "127.0.0.1") :
    extractClientIp h = v ∧ defaultKeyGenerator h = "rate_limit:" ++ v := by
  have h4 : firstTruthy
      [h.xForwardedFor.map xffFirst, h.xRealIp, h.xClientIp, h.peerIp] = some v := by
    have := firstTruthy_append_of_some
      [h.xForwardedFor.map xffFirst, h.xRealIp, h.xClientIp] [h.peerIp] v hv
    simpa using this
  constructor
  · simp [extractClientIp, h4, h1]
  · simp [defaultKeyGenerator, hv, h1, h2]

/-- Witness for the amended C9 at a concrete request. -/
theorem C9_header_chain_agreement_witness :
    extractClientIp ⟨some " 203.0.113.9 , 10.0.0.1", none, none, some "9.9.9.9", none⟩ =
      "203.0.113.9" ∧
    defaultKeyGenerator ⟨some " 203.0.113.9 , 10.0.0.1", none, none, some "9.9.9.9", none⟩ =
      "rate_limit:" ++ "203.0.113.9" :=
  C9_header_chain_agreement
    ⟨some " 203.0.113.9 , 10.0.0.1", none, none, some "9.9.9.9", none⟩
    "203.0.113.9" (by decide) (by decide) (by decide)

/-- C9 counterexample.  The two derivations do not compute the same client
identifier on every request: a loopback `X-Real-IP` is normalized differently
(`localhost` vs `127.0.0.1`), and with no IP headers the logger uses the
transport peer address while the key generator falls through to `unknown`. -/
theorem C9_counterexample :
    extractClientIp ⟨none, some "::1", none, none, none⟩ = "127.0.0.1" ∧
    defaultKeyGenerator ⟨none, some "::1", none, none, none⟩ =
      "rate_limit:localhost" ∧
    ("rate_limit:" ++ extractClientIp ⟨none, some "::1", none, none, none⟩ ≠
      defaultKeyGenerator ⟨none, some "::1", none, none, none⟩) ∧
    extractClientIp ⟨none, none, none, some "198.51.100.9", none⟩ =
      "198.51.100.9" ∧
    defaultKeyGenerator ⟨none, none, none, some "198.51.100.9", none⟩ =
      "rate_limit:unknown" ∧
    ("rate_limit:" ++ extractClientIp ⟨none, none, none, some "198.51.100.9", none⟩ ≠
      defaultKeyGenerator ⟨none, none, none, some "198.51.100.9", none⟩) := by
  refine ⟨?_, ?_, ?_, ?_, ?_, ?_⟩ <;> decide

/-- A character not occurring in the replacement never occurs after its own
replacement pass. -/
theorem not_mem_replaceChar_self {c : Char} {r : List Char} (hr : c ∉ r) :
    ∀ l : List Char, c ∉ replaceChar c r l := by
  intro l
  induction l with
  | nil => simp [replaceChar]
  | cons x xs ih =>
    intro hmem
    rcases List.mem_append.mp hmem with h | h
    · by_cases hx : x = c
      · rw [if_pos hx] at h; exact hr h
      · rw [if_neg hx] at h; simp at h; exact hx h.symm
    · exact ih h

/-- `replaceChar` introduces no character beyond its replacement string. -/
theorem not_mem_replaceChar {c d : Char} {r : List Char} (hr : c ∉ r) :
    ∀ l : List Char, c ∉ l → c ∉ replaceChar d r l := by
  intro l
  induction l with
  | nil => intro _; simp [replaceChar]
  | cons x xs ih =>
    intro hl hmem
    rcases List.mem_append.mp hmem with h | h
    · by_cases hd : x = d
      · rw [if_pos hd] at h; exact hr h
      · rw [if_neg hd] at h; simp at h
        exact hl (h ▸ List.mem_cons_self x xs)
    · exact ih (fun hc => hl (List.mem_cons_of_mem _ hc)) h

/-- `replaceChar` is the identity when the replaced character is absent. -/
theorem replaceChar_id {c : Char} {r : List Char} :
    ∀ l : List Char, c ∉ l → replaceChar c r l = l := by
  intro l
  induction l with
  | nil => intro _; rfl
  | cons x xs ih =>
    intro hl
    have hx : ¬ x = c := fun h => hl (h ▸ List.mem_cons_self x xs)
    simp only [replaceChar, if_neg hx, List.singleton_append, List.cons.injEq,
      true_and]
    exact ih (fun hc => hl (List.mem_cons_of_mem _ hc))

/-- Every removal pass run through the scan engine only deletes characters:
the output's characters all come from the input. -/
theorem mem_of_runScan (step : Option Char → List Char → Option Nat) (c : Char) :
    ∀ (l : List Char) (skip : Nat) (prev : Option Char),
      c ∈ runScan step skip prev l → c ∈ l := by
  intro l
  induction l with
  | nil => intro skip prev h; cases skip <;> simp [runScan] at h
  | cons x xs ih =>
    intro skip prev h
    cases skip with
    | zero =>
      rw [runScan] at h
      cases hs : step prev (x :: xs) with
      | some n =>
        rw [hs] at h
        exact List.mem_cons_of_mem _ (ih _ _ h)
      | none =>
        rw [hs] at h
        rcases List.mem_cons.mp h with h | h
        · exact h ▸ List.mem_cons_self x xs
        · exact List.mem_cons_of_mem _ (ih _ _ h)
    | succ k =>
      rw [runScan] at h
      exact List.mem_cons_of_mem _ (ih _ _ h)

/-- The scan engine is the identity when the matcher fires on no (non-empty)
suffix of the input. -/
theorem runScan_id (step : Option Char → List Char → Option Nat) :
    ∀ (l : List Char) (prev : Option Char),
      (∀ (prev2 : Option Char) (c : Char) (cs : List Char),
        (c :: cs) <:+ l → step prev2 (c :: cs) = none) →
      runScan step 0 prev l = l := by
  intro l
  induction l with
  | nil => intro _ _; rfl
  | cons x xs ih =>
    intro prev hstep
    rw [runScan, hstep prev x xs (List.suffix_refl _)]
    have := ih (some x) (fun p2 c cs hsuf => hstep p2 c cs (hsuf.trans (List.suffix_cons x xs)))
    rw [this]

/-- A case-insensitive match inside `m` persists after appending. -/
theorem ciStarts_append {pat : List Char} :
    ∀ {m b : List Char}, ciStarts pat m = true → ciStarts pat (m ++ b) = true := by
  induction pat with
  | nil => intro m b _; rfl
  | cons p ps ih =>
    intro m b h
    cases m with
    | nil => exact absurd h (by simp [ciStarts])
    | cons c cs =>
      simp only [ciStarts, Bool.and_eq_true] at h
      simp only [List.cons_append, ciStarts, Bool.and_eq_true]
      exact ⟨h.1, ih h.2⟩

/-- A case-insensitive match at the head of a suffix witnesses a
case-insensitive occurrence. -/
theorem containsCI_of_suffix {k : Char} {ks : List Char} :
    ∀ {l : List Char} {c : Char} {cs : List Char},
      (c :: cs) <:+ l → ciStarts (k :: ks) (c :: cs) = true →
      containsCI k ks l = true := by
  intro l
  induction l with
  | nil =>
    intro c cs hsuf _
    have := List.eq_nil_of_suffix_nil hsuf
    exact absurd this (by simp)
  | cons x xs ih =>
    intro c cs hsuf hci
    rcases List.suffix_cons_iff.mp hsuf with h | h
    · simp only [containsCI, Bool.or_eq_true]
      left
      rw [h] at hci
      exact hci
    · simp only [containsCI, Bool.or_eq_true]
      right
      exact ih h hci

/-- A case-insensitive occurrence yields a matching suffix. -/
theorem containsCI_extract {k : Char} {ks : List Char} :
    ∀ {m : List Char}, containsCI k ks m = true →
      ∃ (c : Char) (cs : List Char),
        (c :: cs) <:+ m ∧ ciStarts (k :: ks) (c :: cs) = true := by
  intro m
  induction m with
  | nil => intro h; exact absurd h (by simp [containsCI])
  | cons x xs ih =>
    intro h
    simp only [containsCI, Bool.or_eq_true] at h
    rcases h with h | h
    · exact ⟨x, xs, List.suffix_refl _, h⟩
    · rcases ih h with ⟨c, cs, hsuf, hci⟩
      exact ⟨c, cs, hsuf.trans (List.suffix_cons x xs), hci⟩

/-- Case-insensitive occurrence is monotone under taking superlists
(infixes): no occurrence in `l` means none in any infix of `l`. -/
theorem containsCI_mono_within {k : Char} {ks : List Char} {m l : List Char}
    (hinf : m <:+: l) (h : containsCI k ks m = true) :
    containsCI k ks l = true := by
  rcases containsCI_extract h with ⟨c, cs, hsuf, hci⟩
  rcases hinf with ⟨a, b, rfl⟩
  rcases hsuf with ⟨a2, rfl⟩
  have hsuf2 : (c :: (cs ++ b)) <:+ (a ++ (a2 ++ c :: cs) ++ b) := by
    refine ⟨a ++ a2, ?_⟩
    simp
  exact containsCI_of_suffix hsuf2 (by simpa using ciStarts_append hci)

/-- The trimmed string is an infix of the original. -/
theorem jsTrim_infix_self (l : List Char) : jsTrim l <:+: l := by
  have h1 : jsTrim l <+: jsTrimLeft l := List.rdropWhile_prefix isJsSpace (jsTrimLeft l)
  have h2 : jsTrimLeft l <:+ l := List.dropWhile_suffix _
  exact List.IsInfix.trans (List.IsPrefix.isInfix h1) (List.IsSuffix.isInfix h2)

/-- Trimming introduces no characters. -/
theorem mem_of_jsTrim {c : Char} {l : List Char} (h : c ∈ jsTrim l) : c ∈ l :=
  (jsTrim_infix_self l).sublist.subset h

/-- `trim` is idempotent. -/
theorem jsTrim_idem (l : List Char) : jsTrim (jsTrim l) = jsTrim l := by
  have hm : List.dropWhile isJsSpace (List.dropWhile isJsSpace l) =
      List.dropWhile isJsSpace l := List.dropWhile_idempotent _ _
  have h1 : List.dropWhile isJsSpace
      (List.rdropWhile isJsSpace (List.dropWhile isJsSpace l)) =
      List.rdropWhile isJsSpace (List.dropWhile isJsSpace l) := by
    cases hrd : List.rdropWhile isJsSpace (List.dropWhile isJsSpace l) with
    | nil => simp
    | cons c cs =>
      obtain ⟨t, ht⟩ := List.rdropWhile_prefix isJsSpace (List.dropWhile isJsSpace l)
      rw [hrd] at ht
      have hc : isJsSpace c = false := by
        cases hcc : isJsSpace c with
        | false => rfl
        | true =>
          exfalso
          have hm2 := hm
          rw [← ht, List.cons_append, List.dropWhile_cons, hcc] at hm2
          simp only [if_true] at hm2
          have hle := (List.dropWhile_suffix (l := cs ++ t) isJsSpace).sublist.length_le
          rw [hm2] at hle
          simp at hle
      rw [List.dropWhile_cons, hc]
      simp
  calc jsTrim (jsTrim l)
      = List.rdropWhile isJsSpace (List.dropWhile isJsSpace
          (List.rdropWhile isJsSpace (List.dropWhile isJsSpace l))) := rfl
    _ = List.rdropWhile isJsSpace
          (List.rdropWhile isJsSpace (List.dropWhile isJsSpace l)) := by rw [h1]
    _ = List.rdropWhile isJsSpace (List.dropWhile isJsSpace l) :=
          List.rdropWhile_idempotent _ _
    _ = jsTrim l := rfl

/-- The quote-run pass only deletes characters. -/
theorem mem_of_removeQuotePairs (q c : Char) :
    ∀ l, c ∈ removeQuotePairs q l → c ∈ l := by
  intro l
  induction l using removeQuotePairs.induct q with
  | case1 => intro h; simp [removeQuotePairs] at h
  | case2 => intro h; simp [removeQuotePairs] at h
  | case3 a ha => intro h; simpa [removeQuotePairs, ha] using h
  | case4 b rest ih =>
    intro h
    simp only [removeQuotePairs, if_pos rfl] at h
    exact List.mem_cons_of_mem _ (ih h)
  | case5 a b rest ha hab ih =>
    intro h
    simp only [removeQuotePairs, if_neg ha, if_pos hab] at h
    exact List.mem_cons_of_mem _ (List.mem_cons_of_mem _ (ih h))
  | case6 a b rest ha hab ih =>
    intro h
    simp only [removeQuotePairs, if_neg ha, if_neg hab] at h
    rcases List.mem_cons.mp h with h | h
    · exact h ▸ List.mem_cons_self _ _
    · exact List.mem_cons_of_mem _ (ih h)

/-- The quote-run pass is the identity when the quote is absent. -/
theorem removeQuotePairs_id (q : Char) :
    ∀ l, q ∉ l → removeQuotePairs q l = l := by
  intro l
  induction l using removeQuotePairs.induct q with
  | case1 => intro _; rfl
  | case2 => intro hm; simp at hm
  | case3 a ha => intro _; simp [removeQuotePairs, ha]
  | case4 b rest ih => intro hm; simp at hm
  | case5 a b rest ha hab ih =>
    intro hm
    rw [hab.2] at hm
    simp at hm
  | case6 a b rest ha hab ih =>
    intro hm
    have h1 : q ∉ b :: rest := fun hc => hm (List.mem_cons_of_mem _ hc)
    simp only [removeQuotePairs, if_neg ha, if_neg hab]
    rw [ih h1]

/-- The two-character pass only deletes characters. -/
theorem mem_of_removePair (x y c : Char) :
    ∀ l, c ∈ removePair x y l → c ∈ l := by
  intro l
  induction l using removePair.induct x y with
  | case1 => intro h; simp [removePair] at h
  | case2 a => intro h; simpa [removePair] using h
  | case3 a b rest hab ih =>
    intro h
    simp only [removePair, if_pos hab] at h
    exact List.mem_cons_of_mem _ (List.mem_cons_of_mem _ (ih h))
  | case4 a b rest hab ih =>
    intro h
    simp only [removePair, if_neg hab] at h
    rcases List.mem_cons.mp h with h | h
    · exact h ▸ List.mem_cons_self _ _
    · exact List.mem_cons_of_mem _ (ih h)

/-- The two-character pass is the identity when its first character is
absent. -/
theorem removePair_id (x y : Char) :
    ∀ l, x ∉ l → removePair x y l = l := by
  intro l
  induction l using removePair.induct x y with
  | case1 => intro _; rfl
  | case2 a => intro _; rfl
  | case3 a b rest hab ih =>
    intro hm
    rw [hab.1] at hm
    simp at hm
  | case4 a b rest hab ih =>
    intro hm
    have h1 : x ∉ b :: rest := fun hc => hm (List.mem_cons_of_mem _ hc)
    simp only [removePair, if_neg hab]
    rw [ih h1]

/-- Keyword removal only deletes characters. -/
theorem mem_of_removeKeyword (kw : String) (c : Char) (l : List Char)
    (h : c ∈ removeKeyword kw l) : c ∈ l := by
  unfold removeKeyword at h
  cases hk : kw.data with
  | nil => rw [hk] at h; exact h
  | cons k ks => rw [hk] at h; exact mem_of_runScan _ c l 0 none h

/-- The SQL-injection pass only deletes characters. -/
theorem mem_of_preventSQLInjection (c : Char) (l : List Char)
    (h : c ∈ preventSQLInjection l) : c ∈ l := by
  simp only [preventSQLInjection] at h
  replace h := mem_of_removeKeyword _ _ _ h
  replace h := mem_of_removeKeyword _ _ _ h
  replace h := mem_of_removeKeyword _ _ _ h
  replace h := mem_of_removeKeyword _ _ _ h
  replace h := mem_of_removeKeyword _ _ _ h
  replace h := mem_of_removeKeyword _ _ _ h
  replace h := mem_of_removeKeyword _ _ _ h
  replace h := mem_of_removeKeyword _ _ _ h
  replace h := mem_of_removeKeyword _ _ _ h
  replace h := mem_of_removeKeyword _ _ _ h
  replace h := mem_of_removePair _ _ _ _ h
  replace h := mem_of_removePair _ _ _ _ h
  replace h := mem_of_removePair _ _ _ _ h
  replace h := List.mem_of_mem_filter h
  replace h := mem_of_removeQuotePairs _ _ _ h
  exact mem_of_removeQuotePairs _ _ _ h

/-- `stripHTML` only deletes characters. -/
theorem mem_of_stripHTML (c : Char) (l : List Char)
    (h : c ∈ stripHTML l) : c ∈ l :=
  mem_of_runScan htmlTagStep c l 0 none h

/-- The four unconditional `sanitizeHTML` passes only delete characters. -/
theorem mem_of_htmlCore (c : Char) (l : List Char)
    (h : c ∈ removeDataUrls (removeCISub 'J' ("AVASCRIPT:".data)
      (removeEventHandlers (removeScriptTags l)))) : c ∈ l :=
  mem_of_runScan _ _ _ _ _ (mem_of_runScan _ _ _ _ _
    (mem_of_runScan _ _ _ _ _ (mem_of_runScan _ _ _ _ _ h)))

/-- `sanitizeHTML` only deletes characters. -/
theorem mem_of_sanitizeHTML (opts : SanitizationOptions) (c : Char)
    (l : List Char) (h : c ∈ sanitizeHTML opts l) : c ∈ l := by
  simp only [sanitizeHTML] at h
  split at h
  · replace h := mem_of_runScan _ _ _ _ _ h
    split at h
    · exact mem_of_htmlCore _ _ (mem_of_runScan _ _ _ _ _ h)
    · exact mem_of_htmlCore _ _ h
  · split at h
    · exact mem_of_htmlCore _ _ (mem_of_runScan _ _ _ _ _ h)
    · exact mem_of_htmlCore _ _ h

/-- `stripHTML` is the identity on `<`-free strings. -/
theorem stripHTML_id (l : List Char) (h : '<' ∉ l) : stripHTML l = l := by
  apply runScan_id
  intro p2 c cs hsuf
  have hc : c ∈ l := hsuf.sublist.subset (List.mem_cons_self c cs)
  have hne : ¬ c = '<' := fun hcc => h (hcc ▸ hc)
  simp [htmlTagStep, hne]

/-- Keyword removal is the identity when the keyword never occurs
(case-insensitively) as a substring. -/
theorem removeKeyword_id (kw : String) (l : List Char)
    (h : containsCIStr kw l = false) : removeKeyword kw l = l := by
  unfold removeKeyword
  cases hk : kw.data with
  | nil => rfl
  | cons k ks =>
    simp only [containsCIStr, hk] at h
    apply runScan_id
    intro p2 c cs hsuf
    cases hci : ciStarts (k :: ks) (c :: cs) with
    | false => simp [kwStep, hci]
    | true =>
      exfalso
      have hcon := containsCI_of_suffix hsuf hci
      rw [hcon] at h
      exact Bool.noConfusion h

/-- The properties of a pipeline-inert character, unpacked. -/
theorem pipelineInert_facts {c : Char} (h : pipelineInertChar c = true) :
    isStrippedControl c = false ∧ c ≠ '&' ∧ c ≠ '<' ∧ c ≠ '>' ∧
    c ≠ doubleQuoteChar ∧ c ≠ singleQuoteChar ∧ c ≠ '/' ∧ c ≠ backtickChar ∧
    c ≠ '=' ∧ c ≠ ';' ∧ c ≠ '-' ∧ c ≠ '*' := by
  simp only [pipelineInertChar, Bool.and_eq_true, Bool.not_eq_true',
    beq_eq_false_iff_ne, ne_eq] at h
  exact ⟨h.1.1.1.1.1.1.1.1.1.1.1, h.1.1.1.1.1.1.1.1.1.1.2, h.1.1.1.1.1.1.1.1.1.2,
    h.1.1.1.1.1.1.1.1.2, h.1.1.1.1.1.1.1.2, h.1.1.1.1.1.1.2, h.1.1.1.1.1.2,
    h.1.1.1.1.2, h.1.1.1.2, h.1.1.2, h.1.2, h.2⟩

/-- The XSS escape is the identity on strings avoiding its eight
characters. -/
theorem preventXSS_id (l : List Char)
    (h : ∀ c ∈ l, pipelineInertChar c = true) : preventXSS l = l := by
  have hamp : '&' ∉ l := fun hc => (pipelineInert_facts (h _ hc)).2.1 rfl
  have hlt : '<' ∉ l := fun hc => (pipelineInert_facts (h _ hc)).2.2.1 rfl
  have hgt : '>' ∉ l := fun hc => (pipelineInert_facts (h _ hc)).2.2.2.1 rfl
  have hdq : doubleQuoteChar ∉ l := fun hc => (pipelineInert_facts (h _ hc)).2.2.2.2.1 rfl
  have hsq : singleQuoteChar ∉ l := fun hc => (pipelineInert_facts (h _ hc)).2.2.2.2.2.1 rfl
  have hsl : '/' ∉ l := fun hc => (pipelineInert_facts (h _ hc)).2.2.2.2.2.2.1 rfl
  have hbt : backtickChar ∉ l := fun hc => (pipelineInert_facts (h _ hc)).2.2.2.2.2.2.2.1 rfl
  have heq : '=' ∉ l := fun hc => (pipelineInert_facts (h _ hc)).2.2.2.2.2.2.2.2.1 rfl
  simp only [preventXSS]
  rw [replaceChar_id l hamp, replaceChar_id l hlt, replaceChar_id l hgt,
    replaceChar_id l hdq, replaceChar_id l hsq, replaceChar_id l hsl,
    replaceChar_id l hbt, replaceChar_id l heq]

/-- The SQL-injection pass is the identity on pipeline-inert, keyword-free
strings. -/
theorem preventSQLInjection_id (l : List Char)
    (hch : ∀ c ∈ l, pipelineInertChar c = true)
    (hkw : ∀ kw ∈ sqlKeywordList, containsCIStr kw l = false) :
    preventSQLInjection l = l := by
  have hsq : singleQuoteChar ∉ l := fun hc => (pipelineInert_facts (hch _ hc)).2.2.2.2.2.1 rfl
  have hdq : doubleQuoteChar ∉ l := fun hc => (pipelineInert_facts (hch _ hc)).2.2.2.2.1 rfl
  have hdash : '-' ∉ l := fun hc => (pipelineInert_facts (hch _ hc)).2.2.2.2.2.2.2.2.2.2.1 rfl
  have hslash : '/' ∉ l := fun hc => (pipelineInert_facts (hch _ hc)).2.2.2.2.2.2.1 rfl
  have hstar : '*' ∉ l := fun hc => (pipelineInert_facts (hch _ hc)).2.2.2.2.2.2.2.2.2.2.2 rfl
  have hfil : l.filter (fun c => c ≠ ';') = l := by
    rw [List.filter_eq_self]
    intro c hc
    have := (pipelineInert_facts (hch _ hc)).2.2.2.2.2.2.2.2.2.1
    simpa using this
  simp only [preventSQLInjection]
  rw [removeQuotePairs_id _ _ hsq, removeQuotePairs_id _ _ hdq, hfil,
    removePair_id _ _ _ hdash, removePair_id _ _ _ hslash,
    removePair_id _ _ _ hstar,
    removeKeyword_id _ _ (hkw _ (by simp [sqlKeywordList])),
    removeKeyword_id _ _ (hkw _ (by simp [sqlKeywordList])),
    removeKeyword_id _ _ (hkw _ (by simp [sqlKeywordList])),
    removeKeyword_id _ _ (hkw _ (by simp [sqlKeywordList])),
    removeKeyword_id _ _ (hkw _ (by simp [sqlKeywordList])),
    removeKeyword_id _ _ (hkw _ (by simp [sqlKeywordList])),
    removeKeyword_id _ _ (hkw _ (by simp [sqlKeywordList])),
    removeKeyword_id _ _ (hkw _ (by simp [sqlKeywordList])),
    removeKeyword_id _ _ (hkw _ (by simp [sqlKeywordList])),
    removeKeyword_id _ _ (hkw _ (by simp [sqlKeywordList]))]

/-- After the XSS escape, none of `< > " '` occurs: each is rewritten to an
entity, and no later replacement string reintroduces one. -/
theorem preventXSS_no_unescaped (l : List Char) :
    '<' ∉ preventXSS l ∧ '>' ∉ preventXSS l ∧
    doubleQuoteChar ∉ preventXSS l ∧ singleQuoteChar ∉ preventXSS l := by
  refine ⟨?_, ?_, ?_, ?_⟩ <;> simp only [preventXSS]
  · apply not_mem_replaceChar (by decide)
    apply not_mem_replaceChar (by decide)
    apply not_mem_replaceChar (by decide)
    apply not_mem_replaceChar (by decide)
    apply not_mem_replaceChar (by decide)
    apply not_mem_replaceChar (by decide)
    exact not_mem_replaceChar_self (by decide) _
  · apply not_mem_replaceChar (by decide)
    apply not_mem_replaceChar (by decide)
    apply not_mem_replaceChar (by decide)
    apply not_mem_replaceChar (by decide)
    apply not_mem_replaceChar (by decide)
    exact not_mem_replaceChar_self (by decide) _
  · apply not_mem_replaceChar (by decide)
    apply not_mem_replaceChar (by decide)
    apply not_mem_replaceChar (by decide)
    apply not_mem_replaceChar (by decide)
    exact not_mem_replaceChar_self (by decide) _
  · apply not_mem_replaceChar (by decide)
    apply not_mem_replaceChar (by decide)
    apply not_mem_replaceChar (by decide)
    exact not_mem_replaceChar_self (by decide) _

/-- The stages following the XSS escape (SQL filter, HTML handling) only
delete characters, so they preserve the absence of a character. -/
theorem no_bad_after_tail (opts : SanitizationOptions) (b : Char)
    (t : List Char) (hb : b ∉ preventXSS t) :
    b ∉ (if !opts.allowHtml then
          stripHTML (if opts.preventSQLInjectionOpt then
            preventSQLInjection (preventXSS t) else preventXSS t)
        else
          sanitizeHTML opts (if opts.preventSQLInjectionOpt then
            preventSQLInjection (preventXSS t) else preventXSS t)) := by
  intro hmem
  split at hmem
  · replace hmem := mem_of_stripHTML _ _ hmem
    split at hmem
    · exact hb (mem_of_preventSQLInjection _ _ hmem)
    · exact hb hmem
  · replace hmem := mem_of_sanitizeHTML _ _ _ hmem
    split at hmem
    · exact hb (mem_of_preventSQLInjection _ _ hmem)
    · exact hb hmem

/-- Whenever the XSS toggle is on, the sanitizer's output contains no
unescaped `<`, `>`, `"` or `'` — for every option record and every input. -/
theorem sanitizeChars_no_unescaped (opts : SanitizationOptions)
    (l : List Char) (hx : opts.preventXSSOpt = true) :
    '<' ∉ sanitizeChars opts l ∧ '>' ∉ sanitizeChars opts l ∧
    doubleQuoteChar ∉ sanitizeChars opts l ∧
    singleQuoteChar ∉ sanitizeChars opts l := by
  simp only [sanitizeChars, hx, if_true]
  exact ⟨no_bad_after_tail opts '<' _ (preventXSS_no_unescaped _).1,
    no_bad_after_tail opts '>' _ (preventXSS_no_unescaped _).2.1,
    no_bad_after_tail opts doubleQuoteChar _ (preventXSS_no_unescaped _).2.2.1,
    no_bad_after_tail opts singleQuoteChar _ (preventXSS_no_unescaped _).2.2.2⟩

/-- Case-insensitive substring freedom passes to infixes. -/
theorem containsCIStr_false_mono {kw : String} {m l : List Char}
    (hinf : m <:+: l) (h : containsCIStr kw l = false) :
    containsCIStr kw m = false := by
  cases hk : kw.data with
  | nil => simp [containsCIStr, hk] at h
  | cons k ks =>
    simp only [containsCIStr, hk] at h ⊢
    cases hcc : containsCI k ks m with
    | false => rfl
    | true =>
      exfalso
      rw [containsCI_mono_within hinf hcc] at h
      exact Bool.noConfusion h

/-- On a pipeline-inert, keyword-free string whose trimmed form fits in the
default `maxLength`, the default sanitizer only trims. -/
theorem sanitizeChars_default_eq_trim (l : List Char)
    (hch : ∀ c ∈ l, pipelineInertChar c = true)
    (hkw : ∀ kw ∈ sqlKeywordList, containsCIStr kw l = false)
    (hlen : (jsTrim l).length ≤ 10000) :
    sanitizeChars DEFAULT_SANITIZATION_OPTIONS l = jsTrim l := by
  have hch2 : ∀ c ∈ jsTrim l, pipelineInertChar c = true :=
    fun c hc => hch c (mem_of_jsTrim hc)
  have hkw2 : ∀ kw ∈ sqlKeywordList, containsCIStr kw (jsTrim l) = false :=
    fun kw hm => containsCIStr_false_mono (jsTrim_infix_self l) (hkw kw hm)
  have hfil : (jsTrim l).filter (fun c => !isStrippedControl c) = jsTrim l := by
    rw [List.filter_eq_self]
    intro c hc
    rw [(pipelineInert_facts (hch2 c hc)).1]
    rfl
  have hlt : '<' ∉ jsTrim l :=
    fun hc => (pipelineInert_facts (hch2 _ hc)).2.2.1 rfl
  simp only [sanitizeChars, DEFAULT_SANITIZATION_OPTIONS, if_true,
    Bool.not_false, nfcNormalize]
  rw [hfil]
  rw [if_neg (by omega)]
  rw [preventXSS_id _ hch2, preventSQLInjection_id _ hch2 hkw2,
    stripHTML_id _ hlt]

/-- C5 (amended).  XSS stripping: on `'<script>alert(1)</script>hello'` the
default sanitizer yields `&ltscript&gtalert(1)&lt&#x2Fscript&gthello`, which
contains no `<script` and still contains `hello` — but the literal text
`alert(1)` survives (only the surrounding tag characters are escaped, and
the SQL pass then strips the entity semicolons).  Whenever `preventXSS` is
enabled — for every option record and every input — the output never
contains an unescaped `<`, `>`, `"` or `'`. -/
theorem C5_xss_stripping :
    sanitizeString "<script>alert(1)</script>hello" =
      "&ltscript&gtalert(1)&lt&#x2Fscript&gthello" ∧
    containsSub ("<script".data)
      ((sanitizeString "<script>alert(1)</script>hello").data) = false ∧
    containsSub ("hello".data)
      ((sanitizeString "<script>alert(1)</script>hello").data) = true ∧
    containsSub ("alert(1)".data)
      ((sanitizeString "<script>alert(1)</script>hello").data) = true ∧
    (∀ (opts : SanitizationOptions) (l : List Char),
      opts.preventXSSOpt = true →
      '<' ∉ sanitizeChars opts l ∧ '>' ∉ sanitizeChars opts l ∧
      doubleQuoteChar ∉ sanitizeChars opts l ∧
      singleQuoteChar ∉ sanitizeChars opts l) := by
  refine ⟨by decide, by decide, by decide, by decide, ?_⟩
  intro opts l hx
  exact sanitizeChars_no_unescaped opts l hx

/-- Witness for C5's universally quantified part at the default options and
a concrete input. -/
theorem C5_xss_stripping_witness :
    '<' ∉ sanitizeChars DEFAULT_SANITIZATION_OPTIONS ("a<b>c".data) ∧
    '>' ∉ sanitizeChars DEFAULT_SANITIZATION_OPTIONS ("a<b>c".data) ∧
    doubleQuoteChar ∉ sanitizeChars DEFAULT_SANITIZATION_OPTIONS ("a<b>c".data) ∧
    singleQuoteChar ∉ sanitizeChars DEFAULT_SANITIZATION_OPTIONS ("a<b>c".data) :=
  C5_xss_stripping.2.2.2.2 DEFAULT_SANITIZATION_OPTIONS ("a<b>c".data) rfl

/-- C5 counterexample.  The claim asserts the output contains neither
`<script` nor `alert(1)` in unescaped form; in fact the sanitizer's output
on the claim's own input contains the literal substring `alert(1)`. -/
theorem C5_counterexample :
    sanitizeString "<script>alert(1)</script>hello" =
      "&ltscript&gtalert(1)&lt&#x2Fscript&gthello" ∧
    containsSub ("alert(1)".data)
      ((sanitizeString "<script>alert(1)</script>hello").data) = true := by
  exact ⟨by decide, by decide⟩

/-- C6 (amended).  The default sanitizer is idempotent on strings whose
characters it treats as inert: no control characters, none of
`& < > " ' / `` = ; - *`, no SQL keyword occurring case-insensitively as a
substring, and a trimmed length within the default `maxLength` — on such
strings one application reduces to `trim`, which is idempotent. -/
theorem C6_idempotent_on_inert_strings (s : String)
    (hch : ∀ c ∈ s.data, pipelineInertChar c = true)
    (hkw : ∀ kw ∈ sqlKeywordList, containsCIStr kw s.data = false)
    (hlen : (jsTrim s.data).length ≤ 10000) :
    sanitizeString (sanitizeString s) = sanitizeString s := by
  have h1 : sanitizeString s = ⟨jsTrim s.data⟩ :=
    congrArg String.mk (sanitizeChars_default_eq_trim s.data hch hkw hlen)
  have hch2 : ∀ c ∈ (String.mk (jsTrim s.data)).data, pipelineInertChar c = true :=
    fun c hc => hch c (mem_of_jsTrim hc)
  have hkw2 : ∀ kw ∈ sqlKeywordList,
      containsCIStr kw (String.mk (jsTrim s.data)).data = false :=
    fun kw hm => containsCIStr_false_mono (jsTrim_infix_self s.data) (hkw kw hm)
  have hlen2 : (jsTrim ((String.mk (jsTrim s.data)).data)).length ≤ 10000 := by
    show (jsTrim (jsTrim s.data)).length ≤ 10000
    rw [jsTrim_idem]
    exact hlen
  rw [h1]
  have h2 := sanitizeChars_default_eq_trim ((String.mk (jsTrim s.data)).data)
    hch2 hkw2 hlen2
  show String.mk (sanitizeChars DEFAULT_SANITIZATION_OPTIONS
    ((String.mk (jsTrim s.data)).data)) = String.mk (jsTrim s.data)
  rw [h2]
  show String.mk (jsTrim (jsTrim s.data)) = String.mk (jsTrim s.data)
  rw [jsTrim_idem]

/-- Witness for the amended C6 at a concrete clean string. -/
theorem C6_idempotent_on_inert_strings_witness :
    sanitizeString (sanitizeString "  hello world  ") =
      sanitizeString "  hello world  " :=
  C6_idempotent_on_inert_strings "  hello world  " (by decide) (by decide)
    (by decide)

/-- C6 counterexample.  `"SELECT x"` contains no HTML characters and no
control characters, yet the default sanitizer is not idempotent on it: the
keyword filter leaves `" x"`, which a second application trims to `"x"`. -/
theorem C6_counterexample :
    (∀ c ∈ ("SELECT x").data, isHtmlSpecial c = false ∧ isAsciiControl c = false) ∧
    sanitizeString "SELECT x" = " x" ∧
    sanitizeString (sanitizeString "SELECT x") = "x" ∧
    sanitizeString (sanitizeString "SELECT x") ≠ sanitizeString "SELECT x" := by
  exact ⟨by decide, by decide, by decide, by decide⟩

/-- No guard touches the event buffer. -/
theorem csaLoginFailure_logBuffer (e : AuthLogEntry) (S : LoggerState) :
    (csaLoginFailure e S).logBuffer = S.logBuffer := by
  simp only [csaLoginFailure, createSecurityAlert]
  repeat' split
  all_goals rfl

/-- No guard touches the event buffer. -/
theorem csaSignup_logBuffer (e : AuthLogEntry) (S : LoggerState) :
    (csaSignup e S).logBuffer = S.logBuffer := by
  simp only [csaSignup, createSecurityAlert]
  repeat' split
  all_goals rfl

/-- No guard touches the event buffer. -/
theorem csaNewDevice_logBuffer (e : AuthLogEntry) (S : LoggerState) :
    (csaNewDevice e S).logBuffer = S.logBuffer := by
  simp only [csaNewDevice, createSecurityAlert]
  repeat' split
  all_goals rfl

/-- No guard touches the event buffer. -/
theorem csaToken_logBuffer (e : AuthLogEntry) (S : LoggerState) :
    (csaToken e S).logBuffer = S.logBuffer := by
  simp only [csaToken, createSecurityAlert]
  repeat' split
  all_goals rfl

/-- Alert derivation never touches the event buffer. -/
theorem checkSecurityAlerts_logBuffer (e : AuthLogEntry) (S : LoggerState) :
    (checkSecurityAlerts e S).logBuffer = S.logBuffer := by
  simp only [checkSecurityAlerts]
  rw [csaToken_logBuffer, csaNewDevice_logBuffer, csaSignup_logBuffer,
    csaLoginFailure_logBuffer]

/-- The element just pushed onto a sliced buffer is retained. -/
theorem mem_sliceLast_append {α : Type} (l : List α) (x : α) (n : Nat)
    (hn : 1 ≤ n) : x ∈ sliceLast n (l ++ [x]) := by
  unfold sliceLast
  split
  · rw [List.drop_append_of_le_length (by simp; omega)]
    simp
  · simp

/-- A sliced push still ends with the pushed element. -/
theorem sliceLast_append_eq {α : Type} (l : List α) (x : α) (n : Nat)
    (hn : 1 ≤ n) : ∃ l2, sliceLast n (l ++ [x]) = l2 ++ [x] := by
  unfold sliceLast
  split
  · exact ⟨_, List.drop_append_of_le_length (by simp; omega)⟩
  · exact ⟨l, rfl⟩

/-- The second-to-last element survives a sliced push for any bound ≥ 2. -/
theorem mem_sliceLast_append2 {α : Type} (l : List α) (x y : α) (n : Nat)
    (hn : 2 ≤ n) : x ∈ sliceLast n ((l ++ [x]) ++ [y]) := by
  unfold sliceLast
  split
  · rw [List.drop_append_of_le_length (by simp; omega)]
    rw [List.drop_append_of_le_length (by simp; omega)]
    simp
  · simp

/-- The signup guard is inactive for other events. -/
theorem csaSignup_id (e : AuthLogEntry) (st : LoggerState)
    (h : ¬ e.event = AuthEvent.signup_attempt) : csaSignup e st = st := by
  simp only [csaSignup]
  rw [if_neg h]

/-- The new-device guard is inactive for other events. -/
theorem csaNewDevice_id (e : AuthLogEntry) (st : LoggerState)
    (h : ¬ (e.event = AuthEvent.login_success ∧ strTruthy e.userId = true)) :
    csaNewDevice e st = st := by
  simp only [csaNewDevice]
  rw [if_neg h]

/-- The token guard is inactive for other events. -/
theorem csaToken_id (e : AuthLogEntry) (st : LoggerState)
    (h : ¬ (e.event = AuthEvent.invalid_token ∨ e.event = AuthEvent.token_expired)) :
    csaToken e st = st := by
  simp only [csaToken]
  rw [if_neg h]

/-- On a `login_failure` entry only the first guard acts. -/
theorem checkSecurityAlerts_login_failure (e : AuthLogEntry) (S : LoggerState)
    (he : e.event = AuthEvent.login_failure) :
    checkSecurityAlerts e S = csaLoginFailure e S := by
  simp only [checkSecurityAlerts]
  rw [csaSignup_id _ _ (by simp [he]), csaNewDevice_id _ _ (by simp [he]),
    csaToken_id _ _ (by simp [he])]

/-- Appending via `logAuthEvent` below the 1000-entry cap: the new entry goes
to the end of the event buffer. -/
theorem logAuthEvent_logBuffer (event : AuthEvent) (req : ReqInfo)
    (data : LogData) (now : Int) (st : LoggerState)
    (h : st.logBuffer.length + 1 ≤ 1000) :
    (logAuthEvent event req data now st).logBuffer =
      st.logBuffer ++ [⟨now, event, data.userId, data.email, extractClientIp req,
        extractUserAgent req, data.success, data.error, data.sessionId,
        data.duration⟩] := by
  simp only [logAuthEvent]
  rw [checkSecurityAlerts_logBuffer]
  show sliceLast 1000 (st.logBuffer ++ [_]) = _
  unfold sliceLast
  rw [if_neg (by simp only [List.length_append, List.length_singleton]; omega)]

/-- The first guard, on a `login_failure` entry: a recent-failure count of at
least 3 puts a medium `multiple_login_failures` alert in the buffer, a count
of at least 5 additionally a high `potential_brute_force` alert. -/
theorem csaLoginFailure_alerts (e : AuthLogEntry) (S : LoggerState)
    (he : e.event = AuthEvent.login_failure) :
    (3 ≤ getRecentFailures S.logBuffer e.timestamp e.ip e.email →
      ∃ a ∈ (csaLoginFailure e S).alertBuffer,
        a.level = AlertLevel.medium ∧ a.type = "multiple_login_failures") ∧
    (5 ≤ getRecentFailures S.logBuffer e.timestamp e.ip e.email →
      ∃ a ∈ (csaLoginFailure e S).alertBuffer,
        a.level = AlertLevel.high ∧ a.type = "potential_brute_force") := by
  simp only [csaLoginFailure, if_pos he]
  set n := getRecentFailures S.logBuffer e.timestamp e.ip e.email with hn
  constructor
  · intro h3
    by_cases h5 : 5 ≤ n
    · rw [if_pos h5, if_pos h3]
      refine ⟨⟨AlertLevel.medium, "multiple_login_failures",
        toString n ++ " failed login attempts", e.userId, e.ip, e.timestamp⟩,
        ?_, rfl, rfl⟩
      simp only [createSecurityAlert]
      obtain ⟨l2, hl2⟩ := sliceLast_append_eq S.alertBuffer
        ⟨AlertLevel.medium, "multiple_login_failures",
          toString n ++ " failed login attempts", e.userId, e.ip, e.timestamp⟩
        100 (by omega)
      rw [hl2]
      exact mem_sliceLast_append2 l2 _ _ 100 (by omega)
    · rw [if_neg h5, if_pos h3]
      refine ⟨⟨AlertLevel.medium, "multiple_login_failures",
        toString n ++ " failed login attempts", e.userId, e.ip, e.timestamp⟩,
        ?_, rfl, rfl⟩
      simp only [createSecurityAlert]
      exact mem_sliceLast_append _ _ 100 (by omega)
  · intro h5
    have h3 : 3 ≤ n := by omega
    rw [if_pos h5, if_pos h3]
    refine ⟨⟨AlertLevel.high, "potential_brute_force",
      toString n ++ " failed login attempts - possible brute force",
      e.userId, e.ip, e.timestamp⟩, ?_, rfl, rfl⟩
    simp only [createSecurityAlert]
    exact mem_sliceLast_append _ _ 100 (by omega)

/-- After a `login_failure` append via `logAuthEvent`, a recent-failure
count of at least 3 yields a medium `multiple_login_failures` alert, and a
count of at least 5 additionally a high `potential_brute_force` alert. -/
theorem login_failure_alert_thresholds (st : LoggerState) (req : ReqInfo)
    (data : LogData) (now : Int) :
    (3 ≤ getRecentFailures
        (logAuthEvent AuthEvent.login_failure req data now st).logBuffer
        now (extractClientIp req) data.email →
      ∃ a ∈ (logAuthEvent AuthEvent.login_failure req data now st).alertBuffer,
        a.level = AlertLevel.medium ∧ a.type = "multiple_login_failures") ∧
    (5 ≤ getRecentFailures
        (logAuthEvent AuthEvent.login_failure req data now st).logBuffer
        now (extractClientIp req) data.email →
      ∃ a ∈ (logAuthEvent AuthEvent.login_failure req data now st).alertBuffer,
        a.level = AlertLevel.high ∧ a.type = "potential_brute_force") := by
  simp only [logAuthEvent]
  rw [checkSecurityAlerts_login_failure _ _ rfl]
  rw [csaLoginFailure_logBuffer]
  have h := csaLoginFailure_alerts
    ⟨now, AuthEvent.login_failure, data.userId, data.email, extractClientIp req,
     extractUserAgent req, data.success, data.error, data.sessionId, data.duration⟩
    ⟨sliceLast 1000 (st.logBuffer ++ [⟨now, AuthEvent.login_failure, data.userId,
      data.email, extractClientIp req, extractUserAgent req, data.success,
      data.error, data.sessionId, data.duration⟩]), st.alertBuffer⟩ rfl
  dsimp only at h
  exact h

/-- C7.  Brute-force alert thresholds.  First part: after every appended
`login_failure` entry, a trailing-five-minute same-IP-or-email failure count
(including the new entry) of at least 3 puts a medium
`multiple_login_failures` alert in the alert buffer, and a count of at least
5 additionally a high `potential_brute_force` alert.  Second part: injecting
five `login_failure` events for one client within five minutes into a fresh
logger produces a high `potential_brute_force` alert. -/
theorem C7_brute_force_alert_thresholds :
    (∀ (st : LoggerState) (req : ReqInfo) (data : LogData) (now : Int),
      (3 ≤ getRecentFailures
          (logAuthEvent AuthEvent.login_failure req data now st).logBuffer
          now (extractClientIp req) data.email →
        ∃ a ∈ (logAuthEvent AuthEvent.login_failure req data now st).alertBuffer,
          a.level = AlertLevel.medium ∧ a.type = "multiple_login_failures") ∧
      (5 ≤ getRecentFailures
          (logAuthEvent AuthEvent.login_failure req data now st).logBuffer
          now (extractClientIp req) data.email →
        ∃ a ∈ (logAuthEvent AuthEvent.login_failure req data now st).alertBuffer,
          a.level = AlertLevel.high ∧ a.type = "potential_brute_force")) ∧
    (∀ (req : ReqInfo) (data : LogData) (t1 t2 t3 t4 t5 : Int),
      t1 ≤ t2 → t2 ≤ t3 → t3 ≤ t4 → t4 ≤ t5 → t5 < t1 + 5 * 60 * 1000 →
      ∃ a ∈ (logAuthEvent AuthEvent.login_failure req data t5
          (logAuthEvent AuthEvent.login_failure req data t4
            (logAuthEvent AuthEvent.login_failure req data t3
              (logAuthEvent AuthEvent.login_failure req data t2
                (logAuthEvent AuthEvent.login_failure req data t1
                  emptyLogger))))).alertBuffer,
        a.level = AlertLevel.high ∧ a.type = "potential_brute_force") := by
  constructor
  · exact fun st req data now => login_failure_alert_thresholds st req data now
  · intro req data t1 t2 t3 t4 t5 h12 h23 h34 h45 hwin
    have hb1 := logAuthEvent_logBuffer AuthEvent.login_failure req data t1
      emptyLogger (by simp [emptyLogger])
    rw [show emptyLogger.logBuffer = [] from rfl, List.nil_append] at hb1
    have hb2 := logAuthEvent_logBuffer AuthEvent.login_failure req data t2
      (logAuthEvent AuthEvent.login_failure req data t1 emptyLogger)
      (by rw [hb1]; simp)
    rw [hb1] at hb2
    have hb3 := logAuthEvent_logBuffer AuthEvent.login_failure req data t3
      (logAuthEvent AuthEvent.login_failure req data t2
        (logAuthEvent AuthEvent.login_failure req data t1 emptyLogger))
      (by rw [hb2]; simp)
    rw [hb2] at hb3
    have hb4 := logAuthEvent_logBuffer AuthEvent.login_failure req data t4
      (logAuthEvent AuthEvent.login_failure req data t3
        (logAuthEvent AuthEvent.login_failure req data t2
          (logAuthEvent AuthEvent.login_failure req data t1 emptyLogger)))
      (by rw [hb3]; simp)
    rw [hb3] at hb4
    refine (login_failure_alert_thresholds _ req data t5).2 ?_
    rw [logAuthEvent_logBuffer _ _ _ _ _ (by rw [hb4]; simp), hb4]
    have d1 : t5 - 300000 < t1 := by omega
    have d2 : t5 - 300000 < t2 := by omega
    have d3 : t5 - 300000 < t3 := by omega
    have d4 : t5 - 300000 < t4 := by omega
    have d5 : t5 - 300000 < t5 := by omega
    simp [getRecentFailures, List.filter, d1, d2, d3, d4, d5]

/-- Witness for C7: a buffer holding four matching failures receives both
alerts on the fifth, and five concrete injected failures from one IP raise
the high alert. -/
theorem C7_brute_force_alert_thresholds_witness :
    (∃ a ∈ (logAuthEvent AuthEvent.login_failure
        ⟨some "203.0.113.7", none, none, none, some "UA"⟩
        ⟨false, none, some "a@b.com", some "Invalid password", none, none⟩ 0
        ⟨[⟨0, AuthEvent.login_failure, none, some "a@b.com", "203.0.113.7",
            "UA", false, none, none, none⟩,
          ⟨0, AuthEvent.login_failure, none, some "a@b.com", "203.0.113.7",
            "UA", false, none, none, none⟩,
          ⟨0, AuthEvent.login_failure, none, some "a@b.com", "203.0.113.7",
            "UA", false, none, none, none⟩,
          ⟨0, AuthEvent.login_failure, none, some "a@b.com", "203.0.113.7",
            "UA", false, none, none, none⟩], []⟩).alertBuffer,
      a.level = AlertLevel.medium ∧ a.type = "multiple_login_failures") ∧
    (∃ a ∈ (logAuthEvent AuthEvent.login_failure
        ⟨some "203.0.113.7", none, none, none, some "UA"⟩
        ⟨false, none, some "a@b.com", some "Invalid password", none, none⟩ 0
        ⟨[⟨0, AuthEvent.login_failure, none, some "a@b.com", "203.0.113.7",
            "UA", false, none, none, none⟩,
          ⟨0, AuthEvent.login_failure, none, some "a@b.com", "203.0.113.7",
            "UA", false, none, none, none⟩,
          ⟨0, AuthEvent.login_failure, none, some "a@b.com", "203.0.113.7",
            "UA", false, none, none, none⟩,
          ⟨0, AuthEvent.login_failure, none, some "a@b.com", "203.0.113.7",
            "UA", false, none, none, none⟩], []⟩).alertBuffer,
      a.level = AlertLevel.high ∧ a.type = "potential_brute_force") ∧
    (∃ a ∈ (logAuthEvent AuthEvent.login_failure
        ⟨some "203.0.113.7", none, none, none, some "UA"⟩
        ⟨false, none, some "a@b.com", some "Invalid password", none, none⟩ 4
        (logAuthEvent AuthEvent.login_failure
          ⟨some "203.0.113.7", none, none, none, some "UA"⟩
          ⟨false, none, some "a@b.com", some "Invalid password", none, none⟩ 3
          (logAuthEvent AuthEvent.login_failure
            ⟨some "203.0.113.7", none, none, none, some "UA"⟩
            ⟨false, none, some "a@b.com", some "Invalid password", none, none⟩ 2
            (logAuthEvent AuthEvent.login_failure
              ⟨some "203.0.113.7", none, none, none, some "UA"⟩
              ⟨false, none, some "a@b.com", some "Invalid password", none, none⟩ 1
              (logAuthEvent AuthEvent.login_failure
                ⟨some "203.0.113.7", none, none, none, some "UA"⟩
                ⟨false, none, some "a@b.com", some "Invalid password", none, none⟩ 0
                emptyLogger))))).alertBuffer,
      a.level = AlertLevel.high ∧ a.type = "potential_brute_force") :=
  ⟨(C7_brute_force_alert_thresholds.1
      ⟨[⟨0, AuthEvent.login_failure, none, some "a@b.com", "203.0.113.7",
          "UA", false, none, none, none⟩,
        ⟨0, AuthEvent.login_failure, none, some "a@b.com", "203.0.113.7",
          "UA", false, none, none, none⟩,
        ⟨0, AuthEvent.login_failure, none, some "a@b.com", "203.0.113.7",
          "UA", false, none, none, none⟩,
        ⟨0, AuthEvent.login_failure, none, some "a@b.com", "203.0.113.7",
          "UA", false, none, none, none⟩], []⟩
      ⟨some "203.0.113.7", none, none, none, some "UA"⟩
      ⟨false, none, some "a@b.com", some "Invalid password", none, none⟩ 0).1
    (by decide),
   (C7_brute_force_alert_thresholds.1
      ⟨[⟨0, AuthEvent.login_failure, none, some "a@b.com", "203.0.113.7",
          "UA", false, none, none, none⟩,
        ⟨0, AuthEvent.login_failure, none, some "a@b.com", "203.0.113.7",
          "UA", false, none, none, none⟩,
        ⟨0, AuthEvent.login_failure, none, some "a@b.com", "203.0.113.7",
          "UA", false, none, none, none⟩,
        ⟨0, AuthEvent.login_failure, none, some "a@b.com", "203.0.113.7",
          "UA", false, none, none, none⟩], []⟩
      ⟨some "203.0.113.7", none, none, none, some "UA"⟩
      ⟨false, none, some "a@b.com", some "Invalid password", none, none⟩ 0).2
    (by decide),
   C7_brute_force_alert_thresholds.2
    ⟨some "203.0.113.7", none, none, none, some "UA"⟩
    ⟨false, none, some "a@b.com", some "Invalid password", none, none⟩
    0 1 2 3 4 (by decide) (by decide) (by decide) (by decide) (by decide)⟩

end HaylSpec
